import Mathlib

/-!
Verification development for the share-delivery worker
(`src/serverless/worker.js`) of the one-shot session transfer service.

The JavaScript request handler and its per-token `ShareManager` durable
object are shallowly embedded as pure Lean functions over explicit state.
Modelling conventions, used consistently below:

* Timestamps are integers counted in whole seconds (`Int`).  The code
  mixes `Date.now()` milliseconds and second-granularity TTLs; on whole
  seconds `Math.floor((expiresAtMs - nowMs)/1000)` equals the integer
  difference of the second counts, so the embedding works in seconds.
* A KV namespace is a function from keys to `Option (value × Int)`, the
  `Int` being the absolute expiration instant produced by `expirationTtl`.
  An entry is visible while `now < expiration` (`kvGet`).
* JavaScript `x || d` on strings/numbers is embedded by `jsOrStr` /
  `jsOrNull` / `jsOrInt` (falsy = absent, empty string, or zero).
* Randomness (`crypto.getRandomValues`) is passed in as a byte source
  `Nat → Nat`; each drawn byte is truncated `% 256` as a `Uint8Array`
  does.
* SHA-256 (`hashSecret`) is passed in as an opaque parameter
  `hash : String → String`; the code only ever compares its output for
  equality.
* The distinct key prefixes of `SHARES_KV` (`<48-hex token>`,
  `session:<id>`, `sessionBySender:<sender>:<id>`, `request:<id>`) and the
  inbox namespace (`inbox:<recipient>:<id>`) cannot collide, so each
  prefix is modelled as its own map; `sessionBySender` and `inbox` keys
  are (sender, id) resp. (recipient, id) pairs.
-/

/-- JavaScript `x || d` for an optional string argument with a string
default (`undefined`, `null` and `""` are falsy). -/
def jsOrStr (x : Option String) (d : String) : String :=
  match x with
  | none => d
  | some s => if s = "" then d else s

/-- JavaScript `x || null` for an optional string (normalises the empty
string to `null`). -/
def jsOrNull (x : Option String) : Option String :=
  match x with
  | none => none
  | some s => if s = "" then none else some s

/-- JavaScript `x || d` for an optional integer argument with an integer
default (`undefined`, `null` and `0` are falsy). -/
def jsOrInt (x : Option Int) (d : Int) : Int :=
  match x with
  | none => d
  | some v => if v = 0 then d else v

/-- Pointwise update of a function-backed key-value map. -/
def upd {κ α : Type} [DecidableEq κ] (m : κ → Option α) (k : κ) (v : Option α) :
    κ → Option α :=
  fun k' => if k' = k then v else m k'

/-- Read from a TTL-carrying namespace: an entry put with absolute
expiration `e` is visible while `now < e`. -/
def kvGet {κ α : Type} (m : κ → Option (α × Int)) (now : Int) (k : κ) : Option α :=
  match m k with
  | none => none
  | some (v, e) => if now < e then some v else none

/-- Constant `DEFAULT_MAX_PAYLOAD = 8 * 1024 * 1024` (worker.js line 9). -/
def DEFAULT_MAX_PAYLOAD : Nat := 8 * 1024 * 1024

/-- Constant `DEFAULT_MAX_TTL = 60 * 60` (worker.js line 10). -/
def DEFAULT_MAX_TTL : Int := 60 * 60

/-- Constant `DEFAULT_TTL = 10 * 60` (worker.js line 11). -/
def DEFAULT_TTL : Int := 10 * 60

/-- Rendering of one byte as two lowercase hex characters:
`b.toString(16).padStart(2, '0')` (worker.js line 6). -/
def byteToHex (b : Nat) : String :=
  let ds := Nat.toDigits 16 b
  String.mk (if ds.length < 2 then List.replicate (2 - ds.length) '0' ++ ds else ds)

/-- Embedding of `generateToken(byteLength)` (worker.js lines 3-7): draw
`byteLength` bytes from the random source and join their two-character
hex renderings.  The `% 256` truncation is what storing into a
`Uint8Array` performs. -/
def generateToken (byteLength : Nat) (rnd : Nat → Nat) : String :=
  String.join ((List.range byteLength).map (fun i => byteToHex (rnd i % 256)))

/-- Character class test used by `validateUsername`: `[A-Za-z0-9]`. -/
def isAlnumChar (c : Char) : Bool :=
  (('A' ≤ c && c ≤ 'Z') || ('a' ≤ c && c ≤ 'z') || ('0' ≤ c && c ≤ '9'))

/-- Character class test for the username tail: `[A-Za-z0-9_.-]`. -/
def isUsernameTailChar (c : Char) : Bool :=
  isAlnumChar c || c = '_' || c = '.' || c = '-'

/-- Embedding of `validateUsername` (worker.js lines 46-48): the regex
`^[A-Za-z0-9](?:[A-Za-z0-9_.-]{0,63})$`. -/
def validateUsername (s : String) : Bool :=
  match s.data with
  | [] => false
  | c :: rest => isAlnumChar c && rest.length ≤ 63 && rest.all isUsernameTailChar

/-- Embedding of the payload size guard `payload.length * 0.75 > maxPayload`
(worker.js lines 192 and 244).  In IEEE doubles `0.75` is exact and
`len * 0.75 = len * 3 / 4` is computed exactly for every string length,
so the comparison is exactly the rational comparison `3·len > 4·max`. -/
def payloadTooLarge (len : Nat) (maxPayload : Nat) : Bool :=
  decide (3 * len > 4 * maxPayload)

/-- Embedding of the TTL clamp
`Math.min(Math.max(Number(ttlSec || DEFAULT_TTL), 60), maxTTL)`
(worker.js lines 195 and 245); `maxTTL` is `Number(env.MAX_TTL ||
DEFAULT_MAX_TTL)`. -/
def ttlClamp (ttlSec : Option Int) (maxTTL : Int) : Int :=
  min (max (jsOrInt ttlSec DEFAULT_TTL) 60) maxTTL

/-- Leading-whitespace stripper on character lists (structural). -/
def dropWs : List Char → List Char
  | [] => []
  | c :: rest => if c.isWhitespace then dropWs rest else c :: rest

/-- Embedding of JavaScript `String.prototype.trim()`: strip whitespace
from both ends. -/
def trimStr (s : String) : String :=
  ⟨(dropWs ((dropWs s.data).reverse)).reverse⟩

/-- Helper of `splitComma` (structural recursion over the characters). -/
def splitCommaAux : List Char → List Char → List String
  | [], acc => [⟨acc.reverse⟩]
  | x :: xs, acc =>
      if x = ',' then (⟨acc.reverse⟩ : String) :: splitCommaAux xs []
      else splitCommaAux xs (x :: acc)

/-- Embedding of JavaScript `String.prototype.split(',')`. -/
def splitComma (s : String) : List String := splitCommaAux s.data []

/-- Embedding of `parseAdmins` (worker.js lines 60-65): split the
`ADMIN_USERS` configuration string on commas, trim, drop empties. -/
def parseAdmins (adminUsersEnv : String) : List String :=
  ((splitComma adminUsersEnv).map trimStr).filter (fun s => s ≠ "")

/-- Record stored in the user directory `USERS_KV` (worker.js
lines 159-167). -/
structure UserRecord where
  username : String
  publicKey : String
  authHash : String
  updatedAt : String
deriving DecidableEq, Repr

/-- Embedding of `verifyAuth` (worker.js lines 67-73): the username must
validate, the secret must be non-empty, a user record with a non-empty
`authHash` must exist, and the hash of the supplied secret must equal
the stored hash. -/
def verifyAuth (hash : String → String) (users : String → Option UserRecord)
    (username authSecret : String) : Bool :=
  if ¬ (validateUsername username) || authSecret = "" then false
  else
    match users username with
    | none => false
    | some r => if r.authHash = "" then false else hash authSecret = r.authHash

/-- Embedding of `requireAdmin` (worker.js lines 75-82): wildcard when the
allowlist is empty or contains `*`, otherwise membership, then
`verifyAuth`. -/
def requireAdmin (hash : String → String) (users : String → Option UserRecord)
    (adminUsersEnv : String) (user secret : String) : Bool :=
  let admins := parseAdmins adminUsersEnv
  let wildcard := admins.isEmpty || admins.contains "*"
  if ¬ wildcard && ¬ (admins.contains user) then false
  else verifyAuth hash users user secret

example : validateUsername "alice" = true := by decide
example : validateUsername "" = false := by decide
example : payloadTooLarge 4 3 = false := by decide
example : payloadTooLarge 5 3 = true := by decide
example : ttlClamp (some 30) 3600 = 60 := by decide
example : ttlClamp (some 3601) 3600 = 3600 := by decide
example : (generateToken 20 (fun _ => 0)).length = 40 := by decide
example : (generateToken 16 (fun _ => 255)).length = 32 := by decide

/-- Record held by the `ShareManager` durable object for one token
(worker.js lines 570-574). -/
structure CoordRec where
  consumed : Bool
  expiresAt : Int
  recipient : String
deriving DecidableEq, Repr

/-- Storage of the Token Coordinator: token to record plus optional
absolute expiration (the `init` put passes an `expiration`, the
`consume` rewrite at line 598 passes none, so the consumed record has no
expiration). -/
def CoordStorage : Type := String → Option (CoordRec × Option Int)

/-- Coordinator storage read honouring the optional expiration. -/
def coordGet (st : CoordStorage) (now : Int) (t : String) : Option CoordRec :=
  match st t with
  | none => none
  | some (r, none) => some r
  | some (r, some e) => if now < e then some r else none

/-- Requests accepted by `ShareManager.fetch` (worker.js lines 562-603):
`/init`, `/status` and `/consume`, each on one token. -/
inductive CoordOp where
  | init (token : String) (expiresAt : Int) (recipient : String) (ttl : Option Int)
  | status (token : String)
  | consume (token : String)
deriving DecidableEq, Repr

/-- Embedding of `ShareManager.fetch`: returns the HTTP status code of
the coordinator response and the updated durable storage.
`init` answers 409 on an existing token, otherwise stores an unconsumed
record expiring at `now + (ttl || DEFAULT_TTL)`; `status` answers
404 / 410 / 200; `consume` answers 404 on unknown, 410 on consumed, and
otherwise rewrites the record with `consumed := true` (no expiration on
the rewrite) and answers 200. -/
def coordFetch (st : CoordStorage) (now : Int) (op : CoordOp) : Nat × CoordStorage :=
  match op with
  | .init token expiresAt recipient ttl =>
      match coordGet st now token with
      | some _ => (409, st)
      | none =>
          (200, upd st token (some (⟨false, expiresAt, recipient⟩,
            some (now + jsOrInt ttl DEFAULT_TTL))))
  | .status token =>
      match coordGet st now token with
      | none => (404, st)
      | some r => if r.consumed then (410, st) else (200, st)
  | .consume token =>
      match coordGet st now token with
      | none => (404, st)
      | some r =>
          if r.consumed then (410, st)
          else (200, upd st token (some ({ r with consumed := true }, none)))

/-- Run a sequence of coordinator requests, each arriving at its own
wall-clock instant; collect the (request, status) trace. -/
def coordRun (st : CoordStorage) : List (Int × CoordOp) → List (CoordOp × Nat) × CoordStorage
  | [] => ([], st)
  | (now, op) :: rest =>
      let step := coordFetch st now op
      let tail := coordRun step.2 rest
      ((op, step.1) :: tail.1, tail.2)

/-- Number of `consume` requests for token `t` answered 200 in a trace. -/
def consumeSuccesses (t : String) (tr : List (CoordOp × Nat)) : Nat :=
  (tr.filter (fun p => p.1 == CoordOp.consume t && p.2 == 200)).length

/-- The absorbing situation after a successful consume: the stored record
for `t` is consumed and carries no expiration, so it is visible forever. -/
def ConsumedLocked (st : CoordStorage) (t : String) : Prop :=
  ∃ r : CoordRec, st t = some (r, none) ∧ r.consumed = true

/-- Storage well-formedness: every consumed record was written by the
`consume` branch and therefore carries no expiration. -/
def CoordWF (st : CoordStorage) : Prop :=
  ∀ t r e, st t = some (r, e) → r.consumed = true → e = none

theorem coordGet_locked {st : CoordStorage} {t : String} (h : ConsumedLocked st t)
    (now : Int) : ∃ r, coordGet st now t = some r ∧ r.consumed = true := by
  obtain ⟨r, hr, hc⟩ := h
  exact ⟨r, by simp [coordGet, hr], hc⟩

theorem locked_preserved {st : CoordStorage} {t : String} (h : ConsumedLocked st t)
    (now : Int) (op : CoordOp) : ConsumedLocked ((coordFetch st now op).2) t := by
  obtain ⟨r, hr, hc⟩ := h
  cases op with
  | init token expiresAt recipient ttl =>
      by_cases htk : token = t
      · rw [htk]
        have hg : coordGet st now t = some r := by simp [coordGet, hr]
        exact ⟨r, by simp [coordFetch, hg, hr], hc⟩
      · rcases hg : coordGet st now token with _ | r'
        · refine ⟨r, ?_, hc⟩
          simp [coordFetch, hg, upd, Ne.symm htk, hr]
        · exact ⟨r, by simp [coordFetch, hg, hr], hc⟩
  | status token =>
      refine ⟨r, ?_, hc⟩
      rcases hg : coordGet st now token with _ | r'
      · simp [coordFetch, hg, hr]
      · simp only [coordFetch, hg]
        by_cases hcons : r'.consumed <;> simp [hcons, hr]
  | consume token =>
      by_cases htk : token = t
      · rw [htk]
        have hg : coordGet st now t = some r := by simp [coordGet, hr]
        exact ⟨r, by simp [coordFetch, hg, hc, hr], hc⟩
      · rcases hg : coordGet st now token with _ | r'
        · exact ⟨r, by simp [coordFetch, hg, hr], hc⟩
        · by_cases hcons : r'.consumed
          · exact ⟨r, by simp [coordFetch, hg, hcons, hr], hc⟩
          · refine ⟨r, ?_, hc⟩
            simp [coordFetch, hg, hcons, upd, Ne.symm htk, hr]

theorem locked_consume_410 {st : CoordStorage} {t : String} (h : ConsumedLocked st t)
    (now : Int) : coordFetch st now (.consume t) = (410, st) := by
  obtain ⟨r, hg, hc⟩ := coordGet_locked h now
  simp [coordFetch, hg, hc]

theorem locked_run_410 {st : CoordStorage} {t : String} (h : ConsumedLocked st t) :
    ∀ tr : List (Int × CoordOp), ∀ p ∈ (coordRun st tr).1,
      p.1 = CoordOp.consume t → p.2 = 410 := by
  intro tr
  induction tr generalizing st with
  | nil => intro p hp; simp [coordRun] at hp
  | cons hd tl ih =>
      intro p hp hcons
      rcases hd with ⟨now, op⟩
      simp only [coordRun, List.mem_cons] at hp
      rcases hp with hp | hp
      · subst hp
        simp only at hcons
        subst hcons
        simp [locked_consume_410 h now]
      · exact ih (locked_preserved h now op) p hp hcons

theorem consume_200_locked {st st' : CoordStorage} {t : String} {now : Int}
    (h : coordFetch st now (.consume t) = (200, st')) : ConsumedLocked st' t := by
  rcases hg : coordGet st now t with _ | r
  · simp [coordFetch, hg] at h
  · by_cases hcons : r.consumed
    · simp [coordFetch, hg, hcons] at h
    · simp only [coordFetch, hg, hcons, Bool.false_eq_true, if_false,
        Prod.mk.injEq, true_and] at h
      refine ⟨{ r with consumed := true }, ?_, rfl⟩
      rw [← h]
      simp [upd]

theorem successes_zero_of_locked {st : CoordStorage} {t : String}
    (h : ConsumedLocked st t) (tr : List (Int × CoordOp)) :
    consumeSuccesses t (coordRun st tr).1 = 0 := by
  have hall := locked_run_410 h tr
  unfold consumeSuccesses
  rw [List.length_eq_zero, List.filter_eq_nil_iff]
  intro p hp
  by_cases hc : p.1 = CoordOp.consume t
  · have := hall p hp hc
    simp [hc, this]
  · simp [hc]

/-- At most one consume of token `t` is answered 200 over any request
sequence, from any starting storage. -/
theorem consume_at_most_once (st : CoordStorage) (tr : List (Int × CoordOp))
    (t : String) : consumeSuccesses t (coordRun st tr).1 ≤ 1 := by
  induction tr generalizing st with
  | nil => simp [coordRun, consumeSuccesses]
  | cons hd tl ih =>
      rcases hd with ⟨now, op⟩
      rcases hstep : coordFetch st now op with ⟨code, st'⟩
      have hrun : (coordRun st ((now, op) :: tl)).1 =
          (op, code) :: (coordRun st' tl).1 := by
        simp [coordRun, hstep]
      rw [hrun]
      unfold consumeSuccesses
      by_cases hsel : op = CoordOp.consume t ∧ code = 200
      · rcases hsel with ⟨hop, hcode⟩
        subst hop; subst hcode
        have hzero := successes_zero_of_locked (consume_200_locked hstep) tl
        unfold consumeSuccesses at hzero
        simp [List.filter_cons, hzero]
      · have hpred : ((op, code).1 == CoordOp.consume t && (op, code).2 == (200:Nat))
            = false := by
          by_cases hop : op = CoordOp.consume t
          · have hcode : code ≠ 200 := fun h => hsel ⟨hop, h⟩
            simp [hop, hcode]
          · simp [hop]
        simp only [List.filter_cons, hpred, Bool.false_eq_true, if_false]
        exact ih st'

/-- C1: for every token, the Token Coordinator's `consumed` flag only
transitions from false to true, at most one consume over any request
sequence is answered 200 (surfaced as 204 by the route), every consume
after a successful consume of the same token is answered 410, and a
consume of an unknown token is answered 404. -/
theorem coordinator_consume_exclusive (st : CoordStorage) (t : String) :
    (∀ tr : List (Int × CoordOp), consumeSuccesses t (coordRun st tr).1 ≤ 1) ∧
    (∀ now : Int, coordGet st now t = none →
      (coordFetch st now (.consume t)).1 = 404) ∧
    (∀ (now : Int) (st' : CoordStorage),
      coordFetch st now (.consume t) = (200, st') →
      ∀ tr : List (Int × CoordOp), ∀ p ∈ (coordRun st' tr).1,
        p.1 = CoordOp.consume t → p.2 = 410) ∧
    (CoordWF st → ∀ (now : Int) (op : CoordOp) (r : CoordRec) (e : Option Int),
      st t = some (r, e) → r.consumed = true →
      ∃ r' e', (coordFetch st now op).2 t = some (r', e') ∧ r'.consumed = true) := by
  refine ⟨fun tr => consume_at_most_once st tr t, ?_, ?_, ?_⟩
  · intro now hg
    simp [coordFetch, hg]
  · intro now st' h200 tr p hp
    exact locked_run_410 (consume_200_locked h200) tr p hp
  · intro hwf now op r e hsome hcons
    have hnone : e = none := hwf t r e hsome hcons
    subst hnone
    obtain ⟨r', hr', hc'⟩ := locked_preserved ⟨r, hsome, hcons⟩ now op
    exact ⟨r', none, hr', hc'⟩

/-- Empty coordinator storage used by the concrete C1 scenario. -/
def coordSt0 : CoordStorage := fun _ => none

/-- Coordinator storage after `init` of token `tok` at time 0. -/
def coordSt1 : CoordStorage :=
  (coordFetch coordSt0 0 (.init "tok" 120 "bob" (some 120))).2

/-- Coordinator storage after the first successful consume of `tok`. -/
def coordSt2 : CoordStorage :=
  (coordFetch coordSt1 5 (.consume "tok")).2

/-- Concrete request sequence: init, consume, consume again. -/
def coordTraceC1 : List (Int × CoordOp) :=
  [(0, .init "tok" 120 "bob" (some 120)), (5, .consume "tok"), (6, .consume "tok")]

/-- Witness for C1 at a concrete scenario: the three-request trace admits
at most one successful consume, a consume on empty storage is a 404,
every consume after the successful one is a 410, and a status request
after the consume leaves the consumed flag true. -/
theorem coordSt2_spec (u : String) :
    coordSt2 u = if u = "tok" then some (⟨true, 120, "bob"⟩, none) else none := by
  by_cases hu : u = "tok"
  · rw [hu]; decide
  · rw [if_neg hu]
    change upd (upd coordSt0 "tok" (some (⟨false, 120, "bob"⟩, some 120))) "tok"
      (some (⟨true, 120, "bob"⟩, none)) u = none
    simp [upd, coordSt0, hu]

theorem coordinator_consume_exclusive_witness :
    consumeSuccesses "tok" (coordRun coordSt0 coordTraceC1).1 ≤ 1 ∧
    (coordFetch coordSt0 0 (.consume "tok")).1 = 404 ∧
    (∀ p ∈ (coordRun coordSt2 [(6, CoordOp.consume "tok")]).1,
      p.1 = CoordOp.consume "tok" → p.2 = 410) ∧
    (∃ r' e', (coordFetch coordSt2 7 (.status "tok")).2 "tok" = some (r', e') ∧
      r'.consumed = true) := by
  have hwf : CoordWF coordSt2 := by
    intro u r e h hc
    rw [coordSt2_spec u] at h
    by_cases hu : u = "tok"
    · rw [if_pos hu] at h
      exact (congrArg Prod.snd (Option.some.inj h)).symm
    · rw [if_neg hu] at h
      cases h
  refine ⟨(coordinator_consume_exclusive coordSt0 "tok").1 coordTraceC1,
    (coordinator_consume_exclusive coordSt0 "tok").2.1 0 rfl,
    (coordinator_consume_exclusive coordSt1 "tok").2.2.1 5 coordSt2 rfl
      [(6, CoordOp.consume "tok")],
    (coordinator_consume_exclusive coordSt2 "tok").2.2.2 hwf 7 (.status "tok")
      ⟨true, 120, "bob"⟩ none rfl rfl⟩

/-- Response of `POST /v1/users/:username`: HTTP status plus the
`authSecret` echoed back on first registration only. -/
structure PostUserResp where
  status : Nat
  authSecretOut : Option String
deriving DecidableEq, Repr

/-- Embedding of the `POST /v1/users/:username` branch (worker.js
lines 127-176).  `hash` stands for `hashSecret` (SHA-256, compared only
for equality); `freshSecret` is the value `randomSecret()` would produce;
`now` is the `updatedAt` timestamp string.  `publicKey`/`authSecretIn`
are the body fields, with `none` for an absent field. -/
def postUser (hash : String → String) (kv : String → Option UserRecord)
    (username : String) (publicKey : Option String) (authSecretIn : Option String)
    (freshSecret : String) (now : String) :
    PostUserResp × (String → Option UserRecord) :=
  if ¬ validateUsername username then (⟨400, none⟩, kv)
  else if publicKey.getD "" = "" then (⟨400, none⟩, kv)
  else
    let pk := publicKey.getD ""
    let existing := kv username
    let authSecret0 := authSecretIn.getD ""
    match existing with
    | some ex =>
        if authSecret0 = "" then (⟨403, none⟩, kv)
        else if hash authSecret0 ≠ ex.authHash then (⟨403, none⟩, kv)
        else
          (⟨200, none⟩,
            upd kv username (some ⟨username, pk, hash authSecret0, now⟩))
    | none =>
        (⟨200, some freshSecret⟩,
          upd kv username (some ⟨username, pk, hash freshSecret, now⟩))

/-- Stored metadata of a share record (worker.js lines 210-215). -/
structure ShareMetaRec where
  targetOrigin : Option String
  targetPath : String
  comment : Option String
  sender : Option String
deriving DecidableEq, Repr

/-- Share record stored in `SHARES_KV` under the bare token
(worker.js line 218). -/
structure ShareRec where
  cipher : String
  alg : String
  cmp : Option String
  meta : ShareMetaRec
deriving DecidableEq, Repr

/-- Optional request-body `meta` object of `POST /v1/shares` and
`POST /v1/inbox`. -/
structure MetaIn where
  targetOrigin : Option String
  targetPath : Option String
  comment : Option String
  sender : Option String
  sessionDurationSec : Option Int
deriving DecidableEq, Repr

/-- Metadata of an inbox item.  Items of `meta.type = "share"` carry all
fields; `"revoke"` control items (worker.js lines 375-380) carry only
`type`, `sessionId`, `targetOrigin` and `sender`, hence the options. -/
structure InboxMeta where
  type : String
  sessionId : Option String
  targetOrigin : Option String
  targetPath : Option String
  comment : Option String
  sender : Option String
  sessionDurationSec : Option Int
deriving DecidableEq, Repr

/-- Inbox item stored under `inbox:<recipient>:<id>` (worker.js
lines 255-270, 371-383, 409-424).  `alg` is `Option` because revoke
items store `alg: null`. -/
structure InboxRec where
  cipher : String
  alg : Option String
  cmp : Option String
  meta : InboxMeta
  createdAt : Int
  expiresAt : Int
deriving DecidableEq, Repr

/-- Session record stored under `session:<sessionId>` (worker.js
lines 275-291). -/
structure SessionRec where
  id : String
  sender : String
  recipient : String
  targetOrigin : Option String
  targetPath : String
  createdAt : Int
  durationSec : Int
  expiresAt : Int
  acceptedAt : Option Int
  revokedAt : Option Int
  restoredAt : Option Int
  cipher : String
  alg : String
  cmp : Option String
deriving DecidableEq, Repr

/-- Access request stored under `request:<id>` (worker.js line 480). -/
structure RequestRec where
  id : String
  requester : String
  origin : String
  url : Option String
  createdAt : Int
  targetAdmin : Option String
deriving DecidableEq, Repr

/-- Whole backing state of the worker: the user directory, the prefix
namespaces of `SHARES_KV`, the inbox namespace, the Token Coordinator's
durable storage, and the clock.  Each `Int` paired with a value is the
absolute expiration instant of the entry (`expirationTtl` at put time);
`sessionBySender:<sender>:<id>` entries hold the constant string "1". -/
structure WState where
  users : String → Option UserRecord
  shares : String → Option (ShareRec × Int)
  sessions : String → Option (SessionRec × Int)
  senderIndex : String × String → Option (String × Int)
  inbox : String × String → Option (InboxRec × Int)
  requests : String → Option (RequestRec × Int)
  coord : CoordStorage
  now : Int

/-- Embedding of `POST /v1/shares` (worker.js lines 178-233): validate,
guard the payload size, clamp the TTL, require a registered recipient,
store the cipher record under a fresh 24-byte token, and initialise the
Token Coordinator (whose response the route ignores).  Returns the HTTP
status, the token on success, and the updated state. -/
def sharesPost (s : WState) (recipient : String) (cipher : Option String)
    (cmp alg : Option String) (meta : MetaIn) (ttlSec : Option Int)
    (maxPayload : Nat) (maxTTL : Int) (rnd : Nat → Nat) :
    Nat × Option String × WState :=
  if ¬ validateUsername recipient then (400, none, s)
  else
    let payload := cipher.getD ""
    if payload = "" then (400, none, s)
    else if payloadTooLarge payload.length maxPayload then (400, none, s)
    else
      let ttl := ttlClamp ttlSec maxTTL
      match s.users recipient with
      | none => (404, none, s)
      | some _ =>
          let token := generateToken 24 rnd
          let expiresAt := s.now + ttl
          let shareMeta : ShareMetaRec :=
            { targetOrigin := jsOrNull meta.targetOrigin
              targetPath := jsOrStr meta.targetPath "/"
              comment := jsOrNull meta.comment
              sender := jsOrNull meta.sender }
          let stored : ShareRec :=
            { cipher := payload
              alg := jsOrStr alg "ecdh-hkdf-aesgcm"
              cmp := jsOrNull cmp
              meta := shareMeta }
          let s1 := { s with shares := upd s.shares token (some (stored, s.now + ttl)) }
          let initStep := coordFetch s1.coord s1.now
            (.init token expiresAt recipient (some ttl))
          (201, some token, { s1 with coord := initStep.2 })

/-- Embedding of `GET /v1/shares/:token` (worker.js lines 516-534): ask
the coordinator for status; on 200 fetch the cipher record from
`SHARES_KV`, mapping a lost record to 404. -/
def shareGetRoute (s : WState) (token : String) : Nat × WState :=
  if token = "" then (400, s)
  else
    let step := coordFetch s.coord s.now (.status token)
    let s1 := { s with coord := step.2 }
    if step.1 ≠ 200 then (step.1, s1)
    else
      match kvGet s1.shares s1.now token with
      | none => (404, s1)
      | some _ => (200, s1)

/-- Embedding of `POST /v1/shares/:token/consume` (worker.js
lines 536-544): delegate to the coordinator; on success delete the
`SHARES_KV` entry and answer 204 with a null body (the `Option String`
component, `none` meaning no body bytes). -/
def shareConsumeRoute (s : WState) (token : String) :
    Nat × Option String × WState :=
  if token = "" then (400, some "Token required", s)
  else
    let step := coordFetch s.coord s.now (.consume token)
    let s1 := { s with coord := step.2 }
    if step.1 ≠ 200 then (step.1, some "error", s1)
    else
      (204, none, { s1 with shares := upd s1.shares token none })

/-- Response of `POST /v1/inbox` on 201: `{id, sessionId}`. -/
structure InboxPostResp where
  status : Nat
  ids : Option (String × String)
deriving DecidableEq, Repr

/-- Embedding of `POST /v1/inbox` (worker.js lines 236-299): the same
validation chain as `POST /v1/shares`, then a 20-byte `id` and a 20-byte
`sessionId`; the inbox item is always stored, while the session record
and the `sessionBySender` index entry are stored only when the trimmed
`meta.sender` is non-empty.  The item, the session record and the index
entry all receive `expirationTtl = ttl`. -/
def inboxPost (s : WState) (recipient : String) (cipher : Option String)
    (cmp alg : Option String) (meta : MetaIn) (ttlSec : Option Int)
    (maxPayload : Nat) (maxTTL : Int) (rndId rndSession : Nat → Nat) :
    InboxPostResp × WState :=
  if ¬ validateUsername recipient then (⟨400, none⟩, s)
  else
    let payload := cipher.getD ""
    if payload = "" then (⟨400, none⟩, s)
    else if payloadTooLarge payload.length maxPayload then (⟨400, none⟩, s)
    else
      let ttl := ttlClamp ttlSec maxTTL
      match s.users recipient with
      | none => (⟨404, none⟩, s)
      | some _ =>
          let id := generateToken 20 rndId
          let sessionId := generateToken 20 rndSession
          let sender := jsOrNull (some (trimStr (meta.sender.getD "")))
          let durationSec := (meta.sessionDurationSec.getD 0)
          let entry : InboxRec :=
            { cipher := payload
              alg := some (jsOrStr alg "ecdh-hkdf-aesgcm")
              cmp := jsOrNull cmp
              meta :=
                { type := "share"
                  sessionId := some sessionId
                  targetOrigin := jsOrNull meta.targetOrigin
                  targetPath := some (jsOrStr meta.targetPath "/")
                  comment := jsOrNull meta.comment
                  sender := sender
                  sessionDurationSec := some durationSec }
              createdAt := s.now
              expiresAt := s.now + ttl }
          let inbox1 := upd s.inbox (recipient, id) (some (entry, s.now + ttl))
          let s1 := { s with inbox := inbox1 }
          let s2 :=
            match sender with
            | none => s1
            | some snd =>
                let sessionRecord : SessionRec :=
                  { id := sessionId
                    sender := snd
                    recipient := recipient
                    targetOrigin := jsOrNull meta.targetOrigin
                    targetPath := jsOrStr meta.targetPath "/"
                    createdAt := entry.createdAt
                    durationSec := durationSec
                    expiresAt := entry.expiresAt
                    acceptedAt := none
                    revokedAt := none
                    restoredAt := none
                    cipher := payload
                    alg := jsOrStr alg "ecdh-hkdf-aesgcm"
                    cmp := jsOrNull cmp }
                { s1 with
                  sessions := upd s1.sessions sessionId
                    (some (sessionRecord, s.now + ttl))
                  senderIndex := upd s1.senderIndex (snd, sessionId)
                    (some ("1", s.now + ttl)) }
          (⟨201, some (id, sessionId)⟩, s2)

/-- Embedding of `POST /v1/sessions/:id/revoke` (worker.js lines 354-388):
authenticate the admin, require ownership, push a `revoke` control item
into the recipient's inbox under a fresh 16-byte id with TTL
`max(60, expiresAt - now)`, and rewrite the session record with
`revokedAt = now` under the same TTL.  The `sessionBySender` index entry
is not touched. -/
def revokeOp (hash : String → String) (adminUsersEnv : String) (s : WState)
    (sessionId : String) (username authSecret : Option String)
    (rnd : Nat → Nat) : Nat × WState :=
  let adminUser := trimStr (username.getD "")
  let secret := trimStr (authSecret.getD "")
  if sessionId = "" || ¬ validateUsername adminUser then (400, s)
  else if ¬ requireAdmin hash s.users adminUsersEnv adminUser secret then (403, s)
  else
    match kvGet s.sessions s.now sessionId with
    | none => (404, s)
    | some session =>
        if session.sender ≠ adminUser then (403, s)
        else
          let inboxId := generateToken 16 rnd
          let ttlLeftSec := max 60 (session.expiresAt - s.now)
          let entry : InboxRec :=
            { cipher := ""
              alg := none
              cmp := none
              meta :=
                { type := "revoke"
                  sessionId := some sessionId
                  targetOrigin := jsOrNull session.targetOrigin
                  targetPath := none
                  comment := none
                  sender := some adminUser
                  sessionDurationSec := none }
              createdAt := s.now
              expiresAt := session.expiresAt }
          let session' := { session with revokedAt := some s.now }
          (200,
            { s with
              inbox := upd s.inbox (session.recipient, inboxId)
                (some (entry, s.now + ttlLeftSec))
              sessions := upd s.sessions sessionId
                (some (session', s.now + ttlLeftSec)) })

/-- Embedding of `POST /v1/sessions/:id/restore` (worker.js
lines 390-429): authenticate and require ownership, reject with 410 when
at most 60 seconds remain, with 409 when the retained cipher is empty;
otherwise re-enqueue the original share under a fresh 16-byte inbox id
and rewrite the session with `restoredAt = now`, both with TTL
`expiresAt - now`. -/
def restoreOp (hash : String → String) (adminUsersEnv : String) (s : WState)
    (sessionId : String) (username authSecret : Option String)
    (rnd : Nat → Nat) : Nat × WState :=
  let adminUser := trimStr (username.getD "")
  let secret := trimStr (authSecret.getD "")
  if sessionId = "" || ¬ validateUsername adminUser then (400, s)
  else if ¬ requireAdmin hash s.users adminUsersEnv adminUser secret then (403, s)
  else
    match kvGet s.sessions s.now sessionId with
    | none => (404, s)
    | some session =>
        if session.sender ≠ adminUser then (403, s)
        else
          let ttlLeftSec := session.expiresAt - s.now
          if ¬ (ttlLeftSec > 60) then (410, s)
          else if session.cipher = "" then (409, s)
          else
            let inboxId := generateToken 16 rnd
            let entry : InboxRec :=
              { cipher := session.cipher
                alg := some (jsOrStr (some session.alg) "ecdh-hkdf-aesgcm")
                cmp := jsOrNull session.cmp
                meta :=
                  { type := "share"
                    sessionId := some session.id
                    targetOrigin := jsOrNull session.targetOrigin
                    targetPath := some (jsOrStr (some session.targetPath) "/")
                    comment := none
                    sender := some session.sender
                    sessionDurationSec := some session.durationSec }
                createdAt := s.now
                expiresAt := session.expiresAt }
            let session' := { session with restoredAt := some s.now }
            (200,
              { s with
                inbox := upd s.inbox (session.recipient, inboxId)
                  (some (entry, s.now + ttlLeftSec))
                sessions := upd s.sessions sessionId
                  (some (session', s.now + ttlLeftSec)) })

/-- Embedding of `POST /v1/sessions/:id/accepted` (worker.js
lines 431-443): no authentication; 404 when the session is missing; set
`acceptedAt = now` and rewrite with TTL `max(60, expiresAt - now)` only
when `acceptedAt` is not yet set, otherwise answer `{ok}` untouched. -/
def acceptedOp (s : WState) (sessionId : String) : Nat × WState :=
  if sessionId = "" then (400, s)
  else
    match kvGet s.sessions s.now sessionId with
    | none => (404, s)
    | some session =>
        match session.acceptedAt with
        | some _ => (200, s)
        | none =>
            let session' := { session with acceptedAt := some s.now }
            let ttlLeftSec := max 60 (session.expiresAt - s.now)
            let sessions' :=
              upd s.sessions sessionId (some (session', s.now + ttlLeftSec))
            (200, { s with sessions := sessions' })

/-- Embedding of `POST /v1/sessions/:id/delete` (worker.js lines 445-460):
authenticate the admin, require ownership, then delete both the session
record and its `sessionBySender` index entry. -/
def sessionDeleteOp (hash : String → String) (adminUsersEnv : String)
    (s : WState) (sessionId : String) (username authSecret : Option String) :
    Nat × WState :=
  let adminUser := trimStr (username.getD "")
  let secret := trimStr (authSecret.getD "")
  if sessionId = "" || ¬ validateUsername adminUser then (400, s)
  else if ¬ requireAdmin hash s.users adminUsersEnv adminUser secret then (403, s)
  else
    match kvGet s.sessions s.now sessionId with
    | none => (404, s)
    | some session =>
        if session.sender ≠ adminUser then (403, s)
        else
          (200,
            { s with
              sessions := upd s.sessions sessionId none
              senderIndex := upd s.senderIndex (session.sender, sessionId) none })

/-- Truthiness of an optional string, as JavaScript sees a stored
`targetAdmin` field (`null`/absent and `""` are falsy). -/
def strTruthy (x : Option String) : Bool :=
  match x with
  | none => false
  | some s => ¬ (s = "")

/-- Embedding of the filter of `GET /v1/requests/poll` (worker.js
lines 491-499): of the listed request records, keep exactly those whose
`targetAdmin` is not a truthy value different from the polling admin.
The records listed from the `request:` prefix (up to the query limit)
are the input list. -/
def requestsPollItems (adminUser : String) (recs : List RequestRec) :
    List RequestRec :=
  recs.filter (fun rec => ¬ (strTruthy rec.targetAdmin ∧ rec.targetAdmin ≠ some adminUser))

/-- Lowercase hexadecimal digit test (output alphabet of
`Number.prototype.toString(16)` on bytes). -/
def isHexDigitChar (c : Char) : Bool :=
  ('0' ≤ c && c ≤ '9') || ('a' ≤ c && c ≤ 'f')

set_option maxRecDepth 4096 in
theorem byteToHex_length : ∀ b < 256, (byteToHex b).length = 2 := by decide

set_option maxRecDepth 4096 in
theorem byteToHex_hex : ∀ b < 256, (byteToHex b).data.all isHexDigitChar = true := by
  decide

theorem foldl_append_length : ∀ (L : List String) (acc : String),
    (L.foldl (fun r s => r ++ s) acc).length = acc.length + (L.map String.length).sum := by
  intro L
  induction L with
  | nil => intro acc; simp
  | cons hd tl ih =>
      intro acc
      rw [List.foldl_cons, ih, List.map_cons, List.sum_cons, String.length_append]
      omega

theorem generateToken_length (n : Nat) (rnd : Nat → Nat) :
    (generateToken n rnd).length = 2 * n := by
  show ((((List.range n).map fun i => byteToHex (rnd i % 256))).foldl
    (fun r s => r ++ s) "").length = 2 * n
  rw [foldl_append_length]
  have hall : ∀ x ∈ ((List.range n).map fun i => byteToHex (rnd i % 256)).map
      String.length, x = 2 := by
    intro x hx
    obtain ⟨s, hs, rfl⟩ := List.mem_map.mp hx
    obtain ⟨i, _, rfl⟩ := List.mem_map.mp hs
    exact byteToHex_length _ (Nat.mod_lt _ (by norm_num))
  rw [List.sum_eq_card_nsmul _ 2 hall]
  simp only [List.length_map, List.length_range, smul_eq_mul, String.length]
  simp
  omega

theorem generateToken_hex (n : Nat) (rnd : Nat → Nat) :
    (generateToken n rnd).data.all isHexDigitChar = true := by
  unfold generateToken
  rw [String.join_eq]
  show ((((List.range n).map fun i => byteToHex (rnd i % 256)).map
    String.data).flatten).all isHexDigitChar = true
  rw [List.all_eq_true]
  intro c hc
  obtain ⟨l, hl, hcl⟩ := List.mem_flatten.mp hc
  obtain ⟨s, hs, rfl⟩ := List.mem_map.mp hl
  obtain ⟨i, _, rfl⟩ := List.mem_map.mp hs
  have h256 : rnd i % 256 < 256 := Nat.mod_lt _ (by norm_num)
  have hb := byteToHex_hex _ h256
  rw [List.all_eq_true] at hb
  exact hb c hcl

/-- C7 (amended): every identifier produced by `generateToken(n)` is
`2·n` lowercase hex characters, hence share tokens (24 bytes) are
48 hex, the inbox id and session id minted by `POST /v1/inbox`
(20 bytes each) are 40 hex, and request ids as well as the inbox ids
minted by the revoke and restore paths (16 bytes, worker.js lines 368
and 407) are 32 hex characters — not 40. -/
theorem identifier_hex_lengths :
    (∀ (n : Nat) (rnd : Nat → Nat),
      (generateToken n rnd).length = 2 * n ∧
      (generateToken n rnd).data.all isHexDigitChar = true) ∧
    (∀ rnd : Nat → Nat, (generateToken 24 rnd).length = 48) ∧
    (∀ rnd : Nat → Nat, (generateToken 20 rnd).length = 40) ∧
    (∀ rnd : Nat → Nat, (generateToken 16 rnd).length = 32) :=
  ⟨fun n rnd => ⟨generateToken_length n rnd, generateToken_hex n rnd⟩,
    fun rnd => generateToken_length 24 rnd,
    fun rnd => generateToken_length 20 rnd,
    fun rnd => generateToken_length 16 rnd⟩

/-- Concrete hash used in concrete scenarios (stands for SHA-256, which
the worker only compares for equality). -/
def hashW (s : String) : String := "h:" ++ s

/-- Concrete user directory: admin `alice` and recipient `bob`. -/
def usersW : String → Option UserRecord := fun u =>
  if u = "alice" then some ⟨"alice", "PKA", "h:sa", "2024"⟩
  else if u = "bob" then some ⟨"bob", "PKB", "h:sb", "2024"⟩
  else none

/-- Concrete initial worker state at time 0 with an otherwise empty
store. -/
def wState0 : WState :=
  { users := usersW
    shares := fun _ => none
    sessions := fun _ => none
    senderIndex := fun _ => none
    inbox := fun _ => none
    requests := fun _ => none
    coord := fun _ => none
    now := 0 }

/-- Constant-zero byte source. -/
def z0 : Nat → Nat := fun _ => 0

/-- Constant-one byte source. -/
def z1 : Nat → Nat := fun _ => 1

/-- Body `meta` naming `alice` as the sender. -/
def metaAlice : MetaIn := ⟨none, none, none, some "alice", some 0⟩

/-- Session id minted in the concrete inbox scenario. -/
def sidC : String := generateToken 20 z1

/-- State after `POST /v1/inbox` from `alice` to `bob` with `ttlSec=60`
at time 0. -/
def wS1 : WState :=
  (inboxPost wState0 "bob" (some "CIPH") none none metaAlice (some 60)
    DEFAULT_MAX_PAYLOAD DEFAULT_MAX_TTL z0 z1).2

/-- The same state with the clock advanced to 30 s. -/
def wS2 : WState := { wS1 with now := 30 }

/-- State after `alice` revokes the session at time 30 (30 s before the
session's `expiresAt`). -/
def wS3 : WState :=
  (revokeOp hashW "alice" wS2 sidC (some "alice") (some "sa") z0).2

example : (kvGet wS1.sessions 0 sidC).isSome = true := by decide
example : (revokeOp hashW "alice" wS2 sidC (some "alice") (some "sa") z0).1 = 200 := by
  decide

/-- Counterexample to C7 as stated: the revoke path stores an inbox item
for `bob` under an id of 32 hex characters, not 40. -/
theorem inbox_id_forty_cex :
    (wS3.inbox ("bob", generateToken 16 z0)).isSome = true ∧
    (generateToken 16 z0).length = 32 ∧ ¬ (generateToken 16 z0).length = 40 := by
  refine ⟨by decide, by decide, by decide⟩

/-- C3: updating a registered username requires the bearer secret: a
`POST /v1/users/:u` whose `authSecret` is empty/missing or hashes
differently from the stored `authHash` is answered 403 and leaves the
directory untouched; the correct secret is answered 200, overwrites
`publicKey` (bumping `updatedAt`), and the response carries no
`authSecret`. -/
theorem users_update_auth (hash : String → String)
    (kv : String → Option UserRecord) (u pk : String)
    (secretIn : Option String) (fresh now : String) (ex : UserRecord)
    (hu : validateUsername u = true) (hex : kv u = some ex) (hpk : pk ≠ "") :
    ((secretIn.getD "" = "" ∨ hash (secretIn.getD "") ≠ ex.authHash) →
      postUser hash kv u (some pk) secretIn fresh now = (⟨403, none⟩, kv)) ∧
    (secretIn.getD "" ≠ "" → hash (secretIn.getD "") = ex.authHash →
      (postUser hash kv u (some pk) secretIn fresh now).1 = ⟨200, none⟩ ∧
      (postUser hash kv u (some pk) secretIn fresh now).2 u =
        some ⟨u, pk, hash (secretIn.getD ""), now⟩ ∧
      ∀ v, v ≠ u → (postUser hash kv u (some pk) secretIn fresh now).2 v = kv v) := by
  constructor
  · rintro (h | h)
    · simp [postUser, hu, hpk, hex, h]
    · by_cases h0 : secretIn.getD "" = ""
      · simp [postUser, hu, hpk, hex, h0]
      · simp [postUser, hu, hpk, hex, h0, h]
  · intro hne heq
    refine ⟨?_, ?_, ?_⟩
    · simp [postUser, hu, hpk, hex, hne, heq]
    · simp [postUser, hu, hpk, hex, hne, heq, upd]
    · intro v hv
      simp [postUser, hu, hpk, hex, hne, heq, upd, hv]

/-- Witness for C3 on the concrete directory: a wrong secret leaves
`alice` unchanged with a 403; the right secret rotates the key with a
200 and no echoed secret. -/
theorem users_update_auth_witness :
    postUser hashW usersW "alice" (some "PK2") (some "wrong") "fresh" "2025" =
      (⟨403, none⟩, usersW) ∧
    (postUser hashW usersW "alice" (some "PK2") (some "sa") "fresh" "2025").1 =
      ⟨200, none⟩ ∧
    (postUser hashW usersW "alice" (some "PK2") (some "sa") "fresh" "2025").2
      "alice" = some ⟨"alice", "PK2", "h:sa", "2025"⟩ := by
  have h403 := (users_update_auth hashW usersW "alice" "PK2" (some "wrong")
    "fresh" "2025" ⟨"alice", "PKA", "h:sa", "2024"⟩ (by decide) (by decide)
    (by decide)).1 (Or.inr (by decide))
  have h200 := (users_update_auth hashW usersW "alice" "PK2" (some "sa")
    "fresh" "2025" ⟨"alice", "PKA", "h:sa", "2024"⟩ (by decide) (by decide)
    (by decide)).2 (by decide) (by decide)
  exact ⟨h403, h200.1, h200.2.1⟩

/-- C4: the stored TTL of `POST /v1/shares` and `POST /v1/inbox` is
`min(max(ttlSec or DEFAULT_TTL, 60), MAX_TTL)`, hence always within
`[60, MAX_TTL]` whenever `60 ≤ MAX_TTL`; `ttlSec = 30` clamps to 60 and
`ttlSec = MAX_TTL + 1` clamps to `MAX_TTL`.  Both successful routes
store their record with absolute expiration `now + ttlClamp ttlSec
maxTTL`. -/
theorem ttl_clamp_stored (maxTTL : Int) (hmax : 60 ≤ maxTTL) :
    (∀ t : Option Int, 60 ≤ ttlClamp t maxTTL ∧ ttlClamp t maxTTL ≤ maxTTL) ∧
    ttlClamp (some 30) DEFAULT_MAX_TTL = 60 ∧
    ttlClamp (some (DEFAULT_MAX_TTL + 1)) DEFAULT_MAX_TTL = DEFAULT_MAX_TTL ∧
    (∀ (s : WState) (recipient c : String) (cmp alg : Option String)
      (meta : MetaIn) (ttlSec : Option Int) (maxPayload : Nat) (rnd : Nat → Nat)
      (u : UserRecord), validateUsername recipient = true → c ≠ "" →
      payloadTooLarge c.length maxPayload = false → s.users recipient = some u →
      ∃ rec : ShareRec,
        (sharesPost s recipient (some c) cmp alg meta ttlSec maxPayload maxTTL
          rnd).2.2.shares (generateToken 24 rnd) =
          some (rec, s.now + ttlClamp ttlSec maxTTL)) ∧
    (∀ (s : WState) (recipient c : String) (cmp alg : Option String)
      (meta : MetaIn) (ttlSec : Option Int) (maxPayload : Nat)
      (rndId rndSession : Nat → Nat) (u : UserRecord),
      validateUsername recipient = true → c ≠ "" →
      payloadTooLarge c.length maxPayload = false → s.users recipient = some u →
      ∃ rec : InboxRec,
        (inboxPost s recipient (some c) cmp alg meta ttlSec maxPayload maxTTL
          rndId rndSession).2.inbox (recipient, generateToken 20 rndId) =
          some (rec, s.now + ttlClamp ttlSec maxTTL)) := by
  refine ⟨?_, by decide, by decide, ?_, ?_⟩
  · intro t
    unfold ttlClamp
    constructor
    · exact le_min (le_max_right _ _) hmax
    · exact min_le_right _ _
  · intro s recipient c cmp alg meta ttlSec maxPayload rnd u hv hc hg hu
    refine ⟨?_, ?_⟩
    · exact
        { cipher := c
          alg := jsOrStr alg "ecdh-hkdf-aesgcm"
          cmp := jsOrNull cmp
          meta :=
            { targetOrigin := jsOrNull meta.targetOrigin
              targetPath := jsOrStr meta.targetPath "/"
              comment := jsOrNull meta.comment
              sender := jsOrNull meta.sender } }
    · simp [sharesPost, hv, hc, hg, hu, upd]
  · intro s recipient c cmp alg meta ttlSec maxPayload rndId rndSession u hv hc hg hu
    refine ⟨?_, ?_⟩
    · exact
        { cipher := c
          alg := some (jsOrStr alg "ecdh-hkdf-aesgcm")
          cmp := jsOrNull cmp
          meta :=
            { type := "share"
              sessionId := some (generateToken 20 rndSession)
              targetOrigin := jsOrNull meta.targetOrigin
              targetPath := some (jsOrStr meta.targetPath "/")
              comment := jsOrNull meta.comment
              sender := jsOrNull (some (trimStr (meta.sender.getD "")))
              sessionDurationSec := some (meta.sessionDurationSec.getD 0) }
          createdAt := s.now
          expiresAt := s.now + ttlClamp ttlSec maxTTL }
    · cases hsnd : jsOrNull (some (trimStr (meta.sender.getD ""))) with
      | none => simp [inboxPost, hv, hc, hg, hu, hsnd, upd]
      | some snd => simp [inboxPost, hv, hc, hg, hu, hsnd, upd]

/-- Witness for C4: with the default 1-hour ceiling the clamp of a
45-second request lands in `[60, 3600]`, and a concrete
`POST /v1/shares` with `ttlSec = 30` stores its record expiring at
`0 + 60`. -/
theorem ttl_clamp_stored_witness :
    (60 ≤ ttlClamp (some 45) DEFAULT_MAX_TTL ∧
      ttlClamp (some 45) DEFAULT_MAX_TTL ≤ DEFAULT_MAX_TTL) ∧
    (∃ rec : ShareRec,
      (sharesPost wState0 "bob" (some "CIPH") none none metaAlice (some 30)
        DEFAULT_MAX_PAYLOAD DEFAULT_MAX_TTL z0).2.2.shares
        (generateToken 24 z0) = some (rec, 0 + ttlClamp (some 30) DEFAULT_MAX_TTL)) := by
  refine ⟨(ttl_clamp_stored DEFAULT_MAX_TTL (by decide)).1 (some 45), ?_⟩
  exact (ttl_clamp_stored DEFAULT_MAX_TTL (by decide)).2.2.2.1 wState0 "bob" "CIPH"
    none none metaAlice (some 30) DEFAULT_MAX_PAYLOAD z0 ⟨"bob", "PKB", "h:sb", "2024"⟩
    (by decide) (by decide) (by decide) (by decide)

/-- C6: the payload guard rejects exactly when `3·len > 4·MAX_PAYLOAD`
(the exact value of `len × 0.75 > MAX` in IEEE doubles), so a cipher of
exactly `⌊MAX/0.75⌋ = ⌊4·MAX/3⌋` bytes is accepted and one more byte is
rejected; with the default `MAX = 8388608` the boundary is 11184810.
On `POST /v1/shares` with an otherwise valid body the status is 400
exactly above the boundary and 201 at or below it. -/
theorem payload_guard_boundary :
    (∀ M : Nat, payloadTooLarge ((4 * M) / 3) M = false ∧
      payloadTooLarge ((4 * M) / 3 + 1) M = true) ∧
    (∀ len M : Nat, payloadTooLarge len M = true ↔ 3 * len > 4 * M) ∧
    (4 * DEFAULT_MAX_PAYLOAD) / 3 = 11184810 ∧
    (∀ (s : WState) (recipient c : String) (cmp alg : Option String)
      (meta : MetaIn) (ttlSec : Option Int) (maxPayload : Nat) (maxTTL : Int)
      (rnd : Nat → Nat) (u : UserRecord),
      validateUsername recipient = true → c ≠ "" → s.users recipient = some u →
      (sharesPost s recipient (some c) cmp alg meta ttlSec maxPayload maxTTL
        rnd).1 = if payloadTooLarge c.length maxPayload then 400 else 201) := by
  refine ⟨?_, ?_, by decide, ?_⟩
  · intro M
    constructor
    · simp only [payloadTooLarge, decide_eq_false_iff_not, gt_iff_lt, not_lt]
      omega
    · simp only [payloadTooLarge, decide_eq_true_eq, gt_iff_lt]
      omega
  · intro len M
    simp [payloadTooLarge]
  · intro s recipient c cmp alg meta ttlSec maxPayload maxTTL rnd u hv hc hu
    by_cases hg : payloadTooLarge c.length maxPayload
    · simp [sharesPost, hv, hc, hg]
    · simp [sharesPost, hv, hc, hg, hu]

/-- Witness for C6: with `MAX_PAYLOAD = 3` the boundary length is 4, and
on the concrete state a 4-byte cipher yields 201 while a 5-byte cipher
yields 400. -/
theorem payload_guard_boundary_witness :
    (payloadTooLarge ((4 * 3) / 3) 3 = false ∧
      payloadTooLarge ((4 * 3) / 3 + 1) 3 = true) ∧
    ((sharesPost wState0 "bob" (some "CIPH") none none metaAlice none 3
      DEFAULT_MAX_TTL z0).1 =
      if payloadTooLarge ("CIPH").length 3 then 400 else 201) ∧
    ((sharesPost wState0 "bob" (some "CIPHX") none none metaAlice none 3
      DEFAULT_MAX_TTL z0).1 =
      if payloadTooLarge ("CIPHX").length 3 then 400 else 201) := by
  refine ⟨payload_guard_boundary.1 3, ?_, ?_⟩
  · exact payload_guard_boundary.2.2.2 wState0 "bob" "CIPH" none none metaAlice
      none 3 DEFAULT_MAX_TTL z0 ⟨"bob", "PKB", "h:sb", "2024"⟩ (by decide)
      (by decide) (by decide)
  · exact payload_guard_boundary.2.2.2 wState0 "bob" "CIPHX" none none metaAlice
      none 3 DEFAULT_MAX_TTL z0 ⟨"bob", "PKB", "h:sb", "2024"⟩ (by decide)
      (by decide) (by decide)

/-- C9: among the listed request records, `GET /v1/requests/poll` returns
a record to admin `A` exactly when its `targetAdmin` is unset, empty, or
equal to `A`; in particular a request targeted at `alice` is returned to
`alice` and to no other admin. -/
theorem requests_poll_targeting :
    (∀ (adminUser : String) (recs : List RequestRec) (r : RequestRec),
      r ∈ requestsPollItems adminUser recs ↔
        r ∈ recs ∧ (r.targetAdmin = none ∨ r.targetAdmin = some "" ∨
          r.targetAdmin = some adminUser)) ∧
    (∀ (recs : List RequestRec) (r : RequestRec), r.targetAdmin = some "alice" →
      (r ∈ requestsPollItems "alice" recs ↔ r ∈ recs) ∧
      ∀ b, b ≠ "alice" → r ∉ requestsPollItems b recs) := by
  have hmain : ∀ (adminUser : String) (recs : List RequestRec) (r : RequestRec),
      r ∈ requestsPollItems adminUser recs ↔
        r ∈ recs ∧ (r.targetAdmin = none ∨ r.targetAdmin = some "" ∨
          r.targetAdmin = some adminUser) := by
    intro adminUser recs r
    unfold requestsPollItems
    rw [List.mem_filter]
    rcases hta : r.targetAdmin with _ | ta
    · simp [strTruthy, hta]
    · by_cases hempty : ta = ""
      · subst hempty
        simp [strTruthy, hta]
      · by_cases heq : ta = adminUser
        · subst heq
          simp [strTruthy, hta, hempty]
        · simp [strTruthy, hta, hempty, heq]
  refine ⟨hmain, ?_⟩
  intro recs r hta
  constructor
  · rw [hmain "alice" recs r]
    simp [hta]
  · intro b hb hmem
    rw [hmain b recs r] at hmem
    rcases hmem.2 with h | h | h
    · rw [hta] at h; cases h
    · rw [hta] at h
      exact absurd (Option.some.inj h) (by decide)
    · rw [hta] at h
      exact hb (Option.some.inj h).symm

/-- Witness for C9 at a concrete request list: the request targeted at
`alice` is visible to `alice` and invisible to `dave`. -/
theorem requests_poll_targeting_witness :
    (⟨"r1", "carol", "https://x", none, 0, some "alice"⟩ : RequestRec) ∈
      requestsPollItems "alice"
        [⟨"r1", "carol", "https://x", none, 0, some "alice"⟩] ∧
    (⟨"r1", "carol", "https://x", none, 0, some "alice"⟩ : RequestRec) ∉
      requestsPollItems "dave"
        [⟨"r1", "carol", "https://x", none, 0, some "alice"⟩] := by
  have h := requests_poll_targeting.2
    [⟨"r1", "carol", "https://x", none, 0, some "alice"⟩]
    ⟨"r1", "carol", "https://x", none, 0, some "alice"⟩ rfl
  exact ⟨h.1.mpr (List.mem_singleton.mpr rfl), h.2 "dave" (by decide)⟩

/-- C8: `POST /v1/sessions/:id/accepted` is idempotent: on a live session
without `acceptedAt` the first call answers 200 and stores the record
with `acceptedAt = now` and TTL `max(60, expiresAt - now)`; on a live
session with `acceptedAt` already set the call answers `{ok}` (200) and
changes nothing, so in particular the call immediately following a first
acceptance leaves the state untouched. -/
theorem accepted_idempotent (s : WState) (sessionId : String)
    (session : SessionRec) (e : Int) (hid : sessionId ≠ "")
    (hsess : s.sessions sessionId = some (session, e)) (hvis : s.now < e) :
    (session.acceptedAt = none →
      (acceptedOp s sessionId).1 = 200 ∧
      (acceptedOp s sessionId).2.sessions sessionId =
        some ({ session with acceptedAt := some s.now },
          s.now + max 60 (session.expiresAt - s.now)) ∧
      (acceptedOp s sessionId).2.now = s.now) ∧
    (∀ t0, session.acceptedAt = some t0 → acceptedOp s sessionId = (200, s)) ∧
    (session.acceptedAt = none →
      acceptedOp ((acceptedOp s sessionId).2) sessionId =
        (200, (acceptedOp s sessionId).2)) := by
  have hkv : kvGet s.sessions s.now sessionId = some session := by
    simp [kvGet, hsess, hvis]
  refine ⟨?_, ?_, ?_⟩
  · intro hacc
    refine ⟨by simp [acceptedOp, hid, hkv, hacc], ?_, by simp [acceptedOp, hid, hkv, hacc]⟩
    simp [acceptedOp, hid, hkv, hacc, upd]
  · intro t0 hacc
    simp [acceptedOp, hid, hkv, hacc]
  · intro hacc
    have hstate : (acceptedOp s sessionId).2.sessions sessionId =
        some ({ session with acceptedAt := some s.now },
          s.now + max 60 (session.expiresAt - s.now)) := by
      simp [acceptedOp, hid, hkv, hacc, upd]
    have hnow : (acceptedOp s sessionId).2.now = s.now := by
      simp [acceptedOp, hid, hkv, hacc]
    generalize hgen : (acceptedOp s sessionId).2 = s1 at hstate hnow ⊢
    have hvis' : s1.now < s.now + max 60 (session.expiresAt - s.now) := by
      rw [hnow]
      have : (60:Int) ≤ max 60 (session.expiresAt - s.now) := le_max_left _ _
      omega
    have hkv' : kvGet s1.sessions s1.now sessionId =
        some { session with acceptedAt := some s.now } := by
      simp [kvGet, hstate, hvis']
    simp [acceptedOp, hid, hkv']

/-- Witness for C8 on the concrete session created by `POST /v1/inbox`:
the first acceptance at time 0 answers 200 and stores `acceptedAt = 0`
with expiration 60; the immediately repeated call changes nothing, and a
direct call on the already-accepted record answers `(200, unchanged)`. -/
theorem accepted_idempotent_witness :
    ((acceptedOp wS1 sidC).1 = 200 ∧
      (acceptedOp wS1 sidC).2.sessions sidC = some
        ({ id := sidC, sender := "alice", recipient := "bob",
           targetOrigin := none, targetPath := "/", createdAt := 0,
           durationSec := 0, expiresAt := 60, acceptedAt := some 0,
           revokedAt := none, restoredAt := none, cipher := "CIPH",
           alg := "ecdh-hkdf-aesgcm", cmp := none }, 60)) ∧
    acceptedOp ((acceptedOp wS1 sidC).2) sidC = (200, (acceptedOp wS1 sidC).2) := by
  have hsess : wS1.sessions sidC = some
      ({ id := sidC, sender := "alice", recipient := "bob",
         targetOrigin := none, targetPath := "/", createdAt := 0,
         durationSec := 0, expiresAt := 60, acceptedAt := none,
         revokedAt := none, restoredAt := none, cipher := "CIPH",
         alg := "ecdh-hkdf-aesgcm", cmp := none }, 60) := by decide
  have h := accepted_idempotent wS1 sidC _ 60 (by decide) hsess (by decide)
  have h1 := h.1 rfl
  refine ⟨⟨h1.1, ?_⟩, h.2.2 rfl⟩
  rw [h1.2.1]
  decide

theorem generateToken20_ne_empty (rnd : Nat → Nat) : generateToken 20 rnd ≠ "" := by
  intro h
  have hlen := generateToken_length 20 rnd
  rw [h] at hlen
  exact absurd hlen (by decide)

/-- C10: with a valid body whose `meta.sender` trims to empty,
`POST /v1/inbox` still answers 201 with both ids, but writes neither a
session record nor a sender index entry, so the returned `sessionId`
dangles: `accepted`, and (for an authenticated admin) `revoke`,
`restore` and `delete` on it are all answered 404. -/
theorem inbox_orphan_session (s : WState) (recipient c : String)
    (cmp alg : Option String) (meta : MetaIn) (ttlSec : Option Int)
    (maxPayload : Nat) (maxTTL : Int) (rndId rndSession : Nat → Nat)
    (u : UserRecord) (hv : validateUsername recipient = true) (hc : c ≠ "")
    (hg : payloadTooLarge c.length maxPayload = false)
    (hu : s.users recipient = some u)
    (hsender : trimStr (meta.sender.getD "") = "") :
    (inboxPost s recipient (some c) cmp alg meta ttlSec maxPayload maxTTL
      rndId rndSession).1 =
      ⟨201, some (generateToken 20 rndId, generateToken 20 rndSession)⟩ ∧
    (inboxPost s recipient (some c) cmp alg meta ttlSec maxPayload maxTTL
      rndId rndSession).2.sessions = s.sessions ∧
    (inboxPost s recipient (some c) cmp alg meta ttlSec maxPayload maxTTL
      rndId rndSession).2.senderIndex = s.senderIndex ∧
    (s.sessions (generateToken 20 rndSession) = none →
      (acceptedOp (inboxPost s recipient (some c) cmp alg meta ttlSec maxPayload
        maxTTL rndId rndSession).2 (generateToken 20 rndSession)).1 = 404 ∧
      ∀ (hash : String → String) (env : String) (username authSecret : Option String)
        (rnd : Nat → Nat),
        validateUsername (trimStr (username.getD "")) = true →
        requireAdmin hash s.users env (trimStr (username.getD ""))
          (trimStr (authSecret.getD "")) = true →
        (revokeOp hash env (inboxPost s recipient (some c) cmp alg meta ttlSec
          maxPayload maxTTL rndId rndSession).2 (generateToken 20 rndSession)
          username authSecret rnd).1 = 404 ∧
        (restoreOp hash env (inboxPost s recipient (some c) cmp alg meta ttlSec
          maxPayload maxTTL rndId rndSession).2 (generateToken 20 rndSession)
          username authSecret rnd).1 = 404 ∧
        (sessionDeleteOp hash env (inboxPost s recipient (some c) cmp alg meta
          ttlSec maxPayload maxTTL rndId rndSession).2
          (generateToken 20 rndSession) username authSecret).1 = 404) := by
  have hresp : (inboxPost s recipient (some c) cmp alg meta ttlSec maxPayload
      maxTTL rndId rndSession).1 =
      ⟨201, some (generateToken 20 rndId, generateToken 20 rndSession)⟩ := by
    simp [inboxPost, hv, hc, hg, hu, hsender, jsOrNull]
  have hsessions : (inboxPost s recipient (some c) cmp alg meta ttlSec maxPayload
      maxTTL rndId rndSession).2.sessions = s.sessions := by
    simp [inboxPost, hv, hc, hg, hu, hsender, jsOrNull]
  have hindex : (inboxPost s recipient (some c) cmp alg meta ttlSec maxPayload
      maxTTL rndId rndSession).2.senderIndex = s.senderIndex := by
    simp [inboxPost, hv, hc, hg, hu, hsender, jsOrNull]
  have husers : (inboxPost s recipient (some c) cmp alg meta ttlSec maxPayload
      maxTTL rndId rndSession).2.users = s.users := by
    simp [inboxPost, hv, hc, hg, hu, hsender, jsOrNull]
  refine ⟨hresp, hsessions, hindex, ?_⟩
  intro hnone
  generalize hgen : (inboxPost s recipient (some c) cmp alg meta ttlSec maxPayload
    maxTTL rndId rndSession).2 = s' at hsessions hindex husers
  have hne := generateToken20_ne_empty rndSession
  have hkv : kvGet s'.sessions s'.now (generateToken 20 rndSession) = none := by
    simp [kvGet, hsessions, hnone]
  refine ⟨by simp [acceptedOp, hne, hkv], ?_⟩
  intro hash env username authSecret rnd hadminName hadm0
  have hadm : requireAdmin hash s'.users env (trimStr (username.getD ""))
      (trimStr (authSecret.getD "")) = true := by rw [husers]; exact hadm0
  exact ⟨by simp [revokeOp, hne, hadminName, hadm, hkv],
    by simp [restoreOp, hne, hadminName, hadm, hkv],
    by simp [sessionDeleteOp, hne, hadminName, hadm, hkv]⟩

/-- Witness for C10: a concrete senderless inbox post answers 201 with
both ids, yet `accepted` and an authenticated `revoke` on the returned
session id answer 404. -/
theorem inbox_orphan_session_witness :
    (inboxPost wState0 "bob" (some "CIPH") none none ⟨none, none, none, none, none⟩
      (some 60) DEFAULT_MAX_PAYLOAD DEFAULT_MAX_TTL z0 z1).1 =
      ⟨201, some (generateToken 20 z0, generateToken 20 z1)⟩ ∧
    (acceptedOp (inboxPost wState0 "bob" (some "CIPH") none none
      ⟨none, none, none, none, none⟩ (some 60) DEFAULT_MAX_PAYLOAD DEFAULT_MAX_TTL
      z0 z1).2 (generateToken 20 z1)).1 = 404 ∧
    (revokeOp hashW "alice" (inboxPost wState0 "bob" (some "CIPH") none none
      ⟨none, none, none, none, none⟩ (some 60) DEFAULT_MAX_PAYLOAD DEFAULT_MAX_TTL
      z0 z1).2 (generateToken 20 z1) (some "alice") (some "sa") z0).1 = 404 := by
  have h := inbox_orphan_session wState0 "bob" "CIPH" none none
    ⟨none, none, none, none, none⟩ (some 60) DEFAULT_MAX_PAYLOAD DEFAULT_MAX_TTL
    z0 z1 ⟨"bob", "PKB", "h:sb", "2024"⟩ (by decide) (by decide) (by decide)
    (by decide) (by decide)
  have h4 := h.2.2.2 rfl
  exact ⟨h.1, h4.1,
    (h4.2 hashW "alice" (some "alice") (some "sa") z0 (by decide) (by decide)).1⟩

theorem sessionPair_create (s : WState) (recipient c snd : String)
    (cmp alg : Option String) (meta : MetaIn) (ttlSec : Option Int)
    (maxPayload : Nat) (maxTTL : Int) (rndId rndSession : Nat → Nat)
    (u : UserRecord) (hv : validateUsername recipient = true) (hc : c ≠ "")
    (hg : payloadTooLarge c.length maxPayload = false)
    (hu : s.users recipient = some u)
    (hsnd : trimStr (meta.sender.getD "") = snd) (hne : snd ≠ "") :
    ∃ rec : SessionRec,
      (inboxPost s recipient (some c) cmp alg meta ttlSec maxPayload maxTTL
        rndId rndSession).2.sessions (generateToken 20 rndSession) =
        some (rec, s.now + ttlClamp ttlSec maxTTL) ∧
      rec.expiresAt = s.now + ttlClamp ttlSec maxTTL ∧
      rec.sender = snd ∧
      (inboxPost s recipient (some c) cmp alg meta ttlSec maxPayload maxTTL
        rndId rndSession).2.senderIndex (snd, generateToken 20 rndSession) =
        some ("1", s.now + ttlClamp ttlSec maxTTL) := by
  refine ⟨{ id := generateToken 20 rndSession
            sender := snd
            recipient := recipient
            targetOrigin := jsOrNull meta.targetOrigin
            targetPath := jsOrStr meta.targetPath "/"
            createdAt := s.now
            durationSec := meta.sessionDurationSec.getD 0
            expiresAt := s.now + ttlClamp ttlSec maxTTL
            acceptedAt := none
            revokedAt := none
            restoredAt := none
            cipher := c
            alg := jsOrStr alg "ecdh-hkdf-aesgcm"
            cmp := jsOrNull cmp }, ?_, rfl, rfl, ?_⟩ <;>
    simp [inboxPost, hv, hc, hg, hu, hsnd, jsOrNull, hne, upd]

theorem sessionPair_delete (hash : String → String) (env : String) (s : WState)
    (sessionId : String) (username authSecret : Option String)
    (session : SessionRec)
    (hkv : kvGet s.sessions s.now sessionId = some session)
    (h200 : (sessionDeleteOp hash env s sessionId username authSecret).1 = 200) :
    (sessionDeleteOp hash env s sessionId username authSecret).2.sessions
      sessionId = none ∧
    (sessionDeleteOp hash env s sessionId username authSecret).2.senderIndex
      (session.sender, sessionId) = none := by
  by_cases h1 : sessionId = ""
  · simp [sessionDeleteOp, h1] at h200
  by_cases h2 : validateUsername (trimStr (username.getD "")) = true
  · by_cases h3 : requireAdmin hash s.users env (trimStr (username.getD ""))
        (trimStr (authSecret.getD "")) = true
    · by_cases h4 : session.sender = trimStr (username.getD "")
      · constructor <;> simp [sessionDeleteOp, h1, h2, h3, hkv, h4, upd]
      · simp [sessionDeleteOp, h1, h2, h3, hkv, h4] at h200
    · simp [sessionDeleteOp, h1, h2, h3] at h200
  · simp [sessionDeleteOp, h1, h2] at h200

theorem sessionPair_revoke (hash : String → String) (env : String) (s : WState)
    (sessionId : String) (username authSecret : Option String) (rnd : Nat → Nat)
    (session : SessionRec)
    (hkv : kvGet s.sessions s.now sessionId = some session)
    (hge : 60 ≤ session.expiresAt - s.now)
    (h200 : (revokeOp hash env s sessionId username authSecret rnd).1 = 200) :
    (revokeOp hash env s sessionId username authSecret rnd).2.sessions sessionId =
      some ({ session with revokedAt := some s.now }, session.expiresAt) ∧
    (revokeOp hash env s sessionId username authSecret rnd).2.senderIndex =
      s.senderIndex := by
  have hmax : max 60 (session.expiresAt - s.now) = session.expiresAt - s.now :=
    max_eq_right hge
  have hsum : s.now + (session.expiresAt - s.now) = session.expiresAt := by omega
  by_cases h1 : sessionId = ""
  · simp [revokeOp, h1] at h200
  by_cases h2 : validateUsername (trimStr (username.getD "")) = true
  · by_cases h3 : requireAdmin hash s.users env (trimStr (username.getD ""))
        (trimStr (authSecret.getD "")) = true
    · by_cases h4 : session.sender = trimStr (username.getD "")
      · constructor <;> simp [revokeOp, h1, h2, h3, hkv, h4, hmax, hsum, upd]
      · simp [revokeOp, h1, h2, h3, hkv, h4] at h200
    · simp [revokeOp, h1, h2, h3] at h200
  · simp [revokeOp, h1, h2] at h200

theorem sessionPair_revoke_late (hash : String → String) (env : String)
    (s : WState) (sessionId : String) (username authSecret : Option String)
    (rnd : Nat → Nat) (session : SessionRec)
    (hkv : kvGet s.sessions s.now sessionId = some session)
    (hlt : session.expiresAt - s.now < 60)
    (h200 : (revokeOp hash env s sessionId username authSecret rnd).1 = 200) :
    (revokeOp hash env s sessionId username authSecret rnd).2.sessions sessionId =
      some ({ session with revokedAt := some s.now }, s.now + 60) ∧
    (revokeOp hash env s sessionId username authSecret rnd).2.senderIndex =
      s.senderIndex := by
  have hmax : max 60 (session.expiresAt - s.now) = 60 := max_eq_left (by omega)
  by_cases h1 : sessionId = ""
  · simp [revokeOp, h1] at h200
  by_cases h2 : validateUsername (trimStr (username.getD "")) = true
  · by_cases h3 : requireAdmin hash s.users env (trimStr (username.getD ""))
        (trimStr (authSecret.getD "")) = true
    · by_cases h4 : session.sender = trimStr (username.getD "")
      · constructor <;> simp [revokeOp, h1, h2, h3, hkv, h4, hmax, upd]
      · simp [revokeOp, h1, h2, h3, hkv, h4] at h200
    · simp [revokeOp, h1, h2, h3] at h200
  · simp [revokeOp, h1, h2] at h200

theorem sessionPair_accepted (s : WState) (sessionId : String)
    (session : SessionRec) (hid : sessionId ≠ "")
    (hkv : kvGet s.sessions s.now sessionId = some session)
    (hacc : session.acceptedAt = none)
    (hge : 60 ≤ session.expiresAt - s.now) :
    (acceptedOp s sessionId).2.sessions sessionId =
      some ({ session with acceptedAt := some s.now }, session.expiresAt) ∧
    (acceptedOp s sessionId).2.senderIndex = s.senderIndex := by
  have hmax : max 60 (session.expiresAt - s.now) = session.expiresAt - s.now :=
    max_eq_right hge
  have hsum : s.now + (session.expiresAt - s.now) = session.expiresAt := by omega
  constructor <;> simp [acceptedOp, hid, hkv, hacc, hmax, hsum, upd]

theorem sessionPair_restore (hash : String → String) (env : String) (s : WState)
    (sessionId : String) (username authSecret : Option String) (rnd : Nat → Nat)
    (session : SessionRec)
    (hkv : kvGet s.sessions s.now sessionId = some session)
    (h200 : (restoreOp hash env s sessionId username authSecret rnd).1 = 200) :
    (restoreOp hash env s sessionId username authSecret rnd).2.sessions sessionId =
      some ({ session with restoredAt := some s.now }, session.expiresAt) ∧
    (restoreOp hash env s sessionId username authSecret rnd).2.senderIndex =
      s.senderIndex := by
  by_cases h1 : sessionId = ""
  · simp [restoreOp, h1] at h200
  by_cases h2 : validateUsername (trimStr (username.getD "")) = true
  · by_cases h3 : requireAdmin hash s.users env (trimStr (username.getD ""))
        (trimStr (authSecret.getD "")) = true
    · by_cases h4 : session.sender = trimStr (username.getD "")
      · by_cases h5 : session.expiresAt - s.now > 60
        · by_cases h6 : session.cipher = ""
          · simp [restoreOp, h1, h2, h3, hkv, h4, h5, h6] at h200
          · have hsum : s.now + (session.expiresAt - s.now) = session.expiresAt := by
              omega
            constructor <;>
              simp [restoreOp, h1, h2, h3, hkv, h4, h5, h6, hsum, upd]
        · simp [restoreOp, h1, h2, h3, hkv, h4, h5] at h200
      · simp [restoreOp, h1, h2, h3, hkv, h4] at h200
    · simp [restoreOp, h1, h2, h3] at h200
  · simp [restoreOp, h1, h2] at h200

/-- C5 (amended): session creation writes `session:<id>` and
`sessionBySender:<sender>:<id>` with the same expiration (the session's
own `expiresAt`), and delete removes both; a successful restore, and a
successful revoke or a first acceptance performed at least 60 s before
`expiresAt`, rewrite the session record with expiration equal to
`expiresAt` again and leave the index entry untouched, so the pair keeps
equal TTLs.  A revoke issued within 60 s of expiry, however, rewrites
the session key with expiration `now + 60`, which outlives the index
entry's `expiresAt` (the claim's blanket same-TTL invariant fails
there). -/
theorem session_index_pairing :
    (∀ (s : WState) (recipient c snd : String) (cmp alg : Option String)
      (meta : MetaIn) (ttlSec : Option Int) (maxPayload : Nat) (maxTTL : Int)
      (rndId rndSession : Nat → Nat) (u : UserRecord),
      validateUsername recipient = true → c ≠ "" →
      payloadTooLarge c.length maxPayload = false → s.users recipient = some u →
      trimStr (meta.sender.getD "") = snd → snd ≠ "" →
      ∃ rec : SessionRec,
        (inboxPost s recipient (some c) cmp alg meta ttlSec maxPayload maxTTL
          rndId rndSession).2.sessions (generateToken 20 rndSession) =
          some (rec, s.now + ttlClamp ttlSec maxTTL) ∧
        rec.expiresAt = s.now + ttlClamp ttlSec maxTTL ∧
        rec.sender = snd ∧
        (inboxPost s recipient (some c) cmp alg meta ttlSec maxPayload maxTTL
          rndId rndSession).2.senderIndex (snd, generateToken 20 rndSession) =
          some ("1", s.now + ttlClamp ttlSec maxTTL)) ∧
    (∀ (hash : String → String) (env : String) (s : WState) (sessionId : String)
      (username authSecret : Option String) (session : SessionRec),
      kvGet s.sessions s.now sessionId = some session →
      (sessionDeleteOp hash env s sessionId username authSecret).1 = 200 →
      (sessionDeleteOp hash env s sessionId username authSecret).2.sessions
        sessionId = none ∧
      (sessionDeleteOp hash env s sessionId username authSecret).2.senderIndex
        (session.sender, sessionId) = none) ∧
    (∀ (hash : String → String) (env : String) (s : WState) (sessionId : String)
      (username authSecret : Option String) (rnd : Nat → Nat)
      (session : SessionRec),
      kvGet s.sessions s.now sessionId = some session →
      60 ≤ session.expiresAt - s.now →
      (revokeOp hash env s sessionId username authSecret rnd).1 = 200 →
      (revokeOp hash env s sessionId username authSecret rnd).2.sessions
        sessionId = some ({ session with revokedAt := some s.now },
          session.expiresAt) ∧
      (revokeOp hash env s sessionId username authSecret rnd).2.senderIndex =
        s.senderIndex) ∧
    (∀ (s : WState) (sessionId : String) (session : SessionRec),
      sessionId ≠ "" → kvGet s.sessions s.now sessionId = some session →
      session.acceptedAt = none → 60 ≤ session.expiresAt - s.now →
      (acceptedOp s sessionId).2.sessions sessionId =
        some ({ session with acceptedAt := some s.now }, session.expiresAt) ∧
      (acceptedOp s sessionId).2.senderIndex = s.senderIndex) ∧
    (∀ (hash : String → String) (env : String) (s : WState) (sessionId : String)
      (username authSecret : Option String) (rnd : Nat → Nat)
      (session : SessionRec),
      kvGet s.sessions s.now sessionId = some session →
      (restoreOp hash env s sessionId username authSecret rnd).1 = 200 →
      (restoreOp hash env s sessionId username authSecret rnd).2.sessions
        sessionId = some ({ session with restoredAt := some s.now },
          session.expiresAt) ∧
      (restoreOp hash env s sessionId username authSecret rnd).2.senderIndex =
        s.senderIndex) ∧
    (∀ (hash : String → String) (env : String) (s : WState) (sessionId : String)
      (username authSecret : Option String) (rnd : Nat → Nat)
      (session : SessionRec),
      kvGet s.sessions s.now sessionId = some session →
      session.expiresAt - s.now < 60 →
      (revokeOp hash env s sessionId username authSecret rnd).1 = 200 →
      (revokeOp hash env s sessionId username authSecret rnd).2.sessions
        sessionId = some ({ session with revokedAt := some s.now },
          s.now + 60) ∧
      (revokeOp hash env s sessionId username authSecret rnd).2.senderIndex =
        s.senderIndex) :=
  ⟨fun s recipient c snd cmp alg meta ttlSec maxPayload maxTTL rndId rndSession u
      hv hc hg hu hsnd hne =>
    sessionPair_create s recipient c snd cmp alg meta ttlSec maxPayload maxTTL
      rndId rndSession u hv hc hg hu hsnd hne,
   sessionPair_delete, sessionPair_revoke, sessionPair_accepted,
   sessionPair_restore, sessionPair_revoke_late⟩

/-- Counterexample to C5 as stated: after the revoke at time 30 (30 s
before expiry) the session key expires at 90 while its index entry still
expires at 60, so at time 70 the session record is visible while the
`sessionBySender` entry is gone — existence and TTL equality both fail. -/
theorem session_index_ttl_cex :
    (wS3.sessions sidC).map Prod.snd = some 90 ∧
    (wS3.senderIndex ("alice", sidC)).map Prod.snd = some 60 ∧
    (kvGet ({ wS3 with now := 70 }).sessions 70 sidC).isSome = true ∧
    (kvGet ({ wS3 with now := 70 }).senderIndex 70 ("alice", sidC)).isSome =
      false := by
  refine ⟨by decide, by decide, by decide, by decide⟩

/-- Session record created by the concrete `POST /v1/inbox` of `wS1`. -/
def sessRecC : SessionRec :=
  ⟨sidC, "alice", "bob", none, "/", 0, 0, 60, none, none, none, "CIPH",
    "ecdh-hkdf-aesgcm", none⟩

/-- Variant of the concrete scenario created with `ttlSec = 120`, used to
exercise restore (which needs more than 60 s remaining). -/
def wR1 : WState :=
  (inboxPost wState0 "bob" (some "CIPH") none none metaAlice (some 120)
    DEFAULT_MAX_PAYLOAD DEFAULT_MAX_TTL z0 z1).2

/-- Session record created in `wR1`. -/
def sessRecR : SessionRec :=
  ⟨sidC, "alice", "bob", none, "/", 0, 0, 120, none, none, none, "CIPH",
    "ecdh-hkdf-aesgcm", none⟩

/-- Witness for C5 on the concrete scenarios: creation pairs the two
keys at expiration 60; delete removes both; revoke and acceptance at
time 0 (60 s before expiry) keep expiration 60; restore in the 120 s
scenario keeps expiration 120; the late revoke at time 30 rewrites the
session key to expiration 90. -/
theorem session_index_pairing_witness :
    (∃ rec : SessionRec,
      wS1.sessions sidC = some (rec, wState0.now + ttlClamp (some 60)
        DEFAULT_MAX_TTL) ∧
      rec.expiresAt = wState0.now + ttlClamp (some 60) DEFAULT_MAX_TTL ∧
      rec.sender = "alice" ∧
      wS1.senderIndex ("alice", sidC) = some ("1", wState0.now +
        ttlClamp (some 60) DEFAULT_MAX_TTL)) ∧
    ((sessionDeleteOp hashW "alice" wS1 sidC (some "alice")
        (some "sa")).2.sessions sidC = none ∧
      (sessionDeleteOp hashW "alice" wS1 sidC (some "alice")
        (some "sa")).2.senderIndex (sessRecC.sender, sidC) = none) ∧
    ((revokeOp hashW "alice" wS1 sidC (some "alice") (some "sa") z0).2.sessions
        sidC = some ({ sessRecC with revokedAt := some wS1.now },
          sessRecC.expiresAt) ∧
      (revokeOp hashW "alice" wS1 sidC (some "alice") (some "sa")
        z0).2.senderIndex = wS1.senderIndex) ∧
    ((acceptedOp wS1 sidC).2.sessions sidC =
        some ({ sessRecC with acceptedAt := some wS1.now }, sessRecC.expiresAt) ∧
      (acceptedOp wS1 sidC).2.senderIndex = wS1.senderIndex) ∧
    ((restoreOp hashW "alice" wR1 sidC (some "alice") (some "sa") z0).2.sessions
        sidC = some ({ sessRecR with restoredAt := some wR1.now },
          sessRecR.expiresAt) ∧
      (restoreOp hashW "alice" wR1 sidC (some "alice") (some "sa")
        z0).2.senderIndex = wR1.senderIndex) ∧
    ((revokeOp hashW "alice" wS2 sidC (some "alice") (some "sa") z0).2.sessions
        sidC = some ({ sessRecC with revokedAt := some wS2.now },
          wS2.now + 60) ∧
      (revokeOp hashW "alice" wS2 sidC (some "alice") (some "sa")
        z0).2.senderIndex = wS2.senderIndex) := by
  refine ⟨session_index_pairing.1 wState0 "bob" "CIPH" "alice" none none
      metaAlice (some 60) DEFAULT_MAX_PAYLOAD DEFAULT_MAX_TTL z0 z1
      ⟨"bob", "PKB", "h:sb", "2024"⟩ (by decide) (by decide) (by decide)
      (by decide) (by decide) (by decide),
    session_index_pairing.2.1 hashW "alice" wS1 sidC (some "alice") (some "sa")
      sessRecC (by decide) (by decide),
    session_index_pairing.2.2.1 hashW "alice" wS1 sidC (some "alice")
      (some "sa") z0 sessRecC (by decide) (by decide) (by decide),
    session_index_pairing.2.2.2.1 wS1 sidC sessRecC (by decide) (by decide)
      (by decide) (by decide),
    session_index_pairing.2.2.2.2.1 hashW "alice" wR1 sidC (some "alice")
      (some "sa") z0 sessRecR (by decide) (by decide),
    session_index_pairing.2.2.2.2.2 hashW "alice" wS2 sidC (some "alice")
      (some "sa") z0 sessRecC (by decide) (by decide) (by decide)⟩

theorem coordFetch_status_storage (st : CoordStorage) (now : Int) (tok : String) :
    (coordFetch st now (.status tok)).2 = st := by
  rcases hg : coordGet st now tok with _ | r
  · simp [coordFetch, hg]
  · by_cases hc : r.consumed <;> simp [coordFetch, hg, hc]

theorem coordFetch_consume_codes (st : CoordStorage) (now : Int) (tok : String) :
    (coordFetch st now (.consume tok)).1 = 404 ∨
    (coordFetch st now (.consume tok)).1 = 410 ∨
    (coordFetch st now (.consume tok)).1 = 200 := by
  rcases hg : coordGet st now tok with _ | r
  · simp [coordFetch, hg]
  · by_cases hc : r.consumed <;> simp [coordFetch, hg, hc]

theorem coordFetch_consume_ne200 (st : CoordStorage) (now : Int) (tok : String)
    (h : (coordFetch st now (.consume tok)).1 ≠ 200) :
    (coordFetch st now (.consume tok)).2 = st := by
  rcases hg : coordGet st now tok with _ | r
  · simp [coordFetch, hg]
  · by_cases hc : r.consumed
    · simp [coordFetch, hg, hc]
    · simp [coordFetch, hg, hc] at h

theorem coordFetch_init_other (st : CoordStorage) (now : Int)
    (tok t : String) (expiresAt : Int) (recipient : String) (ttl : Option Int)
    (hne : tok ≠ t) :
    (coordFetch st now (.init tok expiresAt recipient ttl)).2 t = st t := by
  rcases hg : coordGet st now tok with _ | r
  · simp [coordFetch, hg, upd, Ne.symm hne]
  · simp [coordFetch, hg]

theorem coordFetch_consume_other (st : CoordStorage) (now : Int)
    (tok t : String) (hne : tok ≠ t) :
    (coordFetch st now (.consume tok)).2 t = st t := by
  rcases hg : coordGet st now tok with _ | r
  · simp [coordFetch, hg]
  · by_cases hc : r.consumed
    · simp [coordFetch, hg, hc]
    · simp [coordFetch, hg, hc, upd, Ne.symm hne]

/-- Per-token invariant relating `SHARES_KV` and the Token Coordinator:
the token was never created (both absent), or both entries are present
with the same absolute expiration and an unconsumed coordinator record
whose `expiresAt` field equals that expiration, or the token was
consumed (share deleted, coordinator record consumed and kept without
expiration). -/
def ShareTokenInv (s : WState) (t : String) : Prop :=
  (s.shares t = none ∧ s.coord t = none) ∨
  (∃ (rec : ShareRec) (r : CoordRec) (e : Int),
    s.shares t = some (rec, e) ∧ s.coord t = some (r, some e) ∧
    r.consumed = false ∧ r.expiresAt = e) ∨
  (s.shares t = none ∧ ∃ r : CoordRec, s.coord t = some (r, none) ∧
    r.consumed = true)

/-- States of the share channel reachable for a fixed token `t`: any
start state with `t` absent from both stores, advancing the clock, a
`POST /v1/shares` whose freshly generated token does not yet occur (the
≥ 192-bit-entropy freshness assumption) and whose clamped TTL is a legal
`expirationTtl` (≥ 60, as the KV API requires), and the GET and consume
routes on arbitrary tokens. -/
inductive SReach (t : String) : WState → Prop where
  | start (s : WState) : s.shares t = none → s.coord t = none → SReach t s
  | tick (s : WState) (d : Int) : SReach t s → 0 ≤ d →
      SReach t { s with now := s.now + d }
  | post (s : WState) (recipient : String) (cipher cmp alg : Option String)
      (meta : MetaIn) (ttlSec : Option Int) (maxPayload : Nat) (maxTTL : Int)
      (rnd : Nat → Nat) : SReach t s →
      s.shares (generateToken 24 rnd) = none →
      s.coord (generateToken 24 rnd) = none →
      60 ≤ ttlClamp ttlSec maxTTL →
      SReach t (sharesPost s recipient cipher cmp alg meta ttlSec maxPayload
        maxTTL rnd).2.2
  | getStep (s : WState) (tok : String) : SReach t s →
      SReach t (shareGetRoute s tok).2
  | consumeStep (s : WState) (tok : String) : SReach t s →
      SReach t (shareConsumeRoute s tok).2.2

theorem shareTokenInv_reach {t : String} {s : WState} (h : SReach t s) :
    ShareTokenInv s t := by
  induction h with
  | start s h1 h2 => exact Or.inl ⟨h1, h2⟩
  | tick s d _ _ ih => exact ih
  | post s recipient cipher cmp alg meta ttlSec maxPayload maxTTL rnd _ hf1 hf2
      httl ih =>
      by_cases hv : validateUsername recipient = true
      · by_cases hp : cipher.getD "" = ""
        · simpa [sharesPost, hv, hp] using ih
        · by_cases hg : payloadTooLarge (cipher.getD "").length maxPayload = true
          · simpa [sharesPost, hv, hp, hg] using ih
          · rcases hu : s.users recipient with _ | u
            · simpa [sharesPost, hv, hp, hg, hu] using ih
            · by_cases htk : generateToken 24 rnd = t
              · right; left
                rw [← htk] at ih ⊢
                have hinit : coordGet s.coord s.now (generateToken 24 rnd) =
                    none := by
                  simp [coordGet, hf2]
                have httl0 : ttlClamp ttlSec maxTTL ≠ 0 := by omega
                refine ⟨?_, ⟨false, s.now + ttlClamp ttlSec maxTTL, recipient⟩,
                  s.now + ttlClamp ttlSec maxTTL, ?_, ?_, rfl, rfl⟩
                · exact
                    { cipher := cipher.getD ""
                      alg := jsOrStr alg "ecdh-hkdf-aesgcm"
                      cmp := jsOrNull cmp
                      meta :=
                        { targetOrigin := jsOrNull meta.targetOrigin
                          targetPath := jsOrStr meta.targetPath "/"
                          comment := jsOrNull meta.comment
                          sender := jsOrNull meta.sender } }
                · simp [sharesPost, hv, hp, hg, hu, upd]
                · simp [sharesPost, hv, hp, hg, hu, coordFetch, hinit, upd,
                    jsOrInt, httl0]
              · have htk' : ¬ t = generateToken 24 rnd := fun h => htk h.symm
                have hsh : (sharesPost s recipient cipher cmp alg meta ttlSec
                    maxPayload maxTTL rnd).2.2.shares t = s.shares t := by
                  simp [sharesPost, hv, hp, hg, hu, upd, htk']
                have hco : (sharesPost s recipient cipher cmp alg meta ttlSec
                    maxPayload maxTTL rnd).2.2.coord t = s.coord t := by
                  simp only [sharesPost, hv, hp, hg, hu]
                  simp only [if_neg, Bool.not_eq_true]
                  exact coordFetch_init_other _ _ _ _ _ _ _ htk
                unfold ShareTokenInv at ih ⊢
                rw [hsh, hco]
                exact ih
      · simpa [sharesPost, hv] using ih
  | getStep s tok _ ih =>
      have hco := coordFetch_status_storage s.coord s.now tok
      by_cases h0 : tok = ""
      · simpa [shareGetRoute, h0] using ih
      · unfold ShareTokenInv at ih ⊢
        by_cases hs : (coordFetch s.coord s.now (CoordOp.status tok)).1 = 200 <;>
          rcases hkv : kvGet s.shares s.now tok with _ | rec <;>
            simp [shareGetRoute, h0, hs, hco, hkv] <;> exact ih
  | consumeStep s tok _ ih =>
      by_cases h0 : tok = ""
      · simpa [shareConsumeRoute, h0] using ih
      · by_cases hc200 : (coordFetch s.coord s.now (CoordOp.consume tok)).1 = 200
        · by_cases htk : tok = t
          · subst htk
            rcases hg : coordGet s.coord s.now tok with _ | r
            · simp [coordFetch, hg] at hc200
            · by_cases hcons : r.consumed
              · simp [coordFetch, hg, hcons] at hc200
              · right; right
                constructor
                · simp [shareConsumeRoute, h0, hc200, upd]
                · refine ⟨{ r with consumed := true }, ?_, rfl⟩
                  simp [shareConsumeRoute, h0, hc200, coordFetch, hg, hcons, upd]
          · have htk' : ¬ t = tok := fun h => htk h.symm
            have hsh : (shareConsumeRoute s tok).2.2.shares t = s.shares t := by
              simp [shareConsumeRoute, h0, hc200, upd, htk']
            have hco : (shareConsumeRoute s tok).2.2.coord t = s.coord t := by
              simp [shareConsumeRoute, h0, hc200]
              exact coordFetch_consume_other _ _ _ _ htk
            unfold ShareTokenInv at ih ⊢
            rw [hsh, hco]
            exact ih
        · have hco := coordFetch_consume_ne200 s.coord s.now tok hc200
          unfold ShareTokenInv at ih ⊢
          simp [shareConsumeRoute, h0, hc200, hco]
          exact ih

/-- C2: when `POST /v1/shares/:token/consume` answers 204 it answers with
no body and has deleted the share record under the token; any later
consume of the token answers 410 and any later GET answers 404 or 410
(in fact 410).  Moreover, in every reachable state of the share channel,
the share record is visible in `SHARES_KV` exactly when the coordinator
holds a live (unexpired, in-TTL) unconsumed record for the token —
the token is neither consumed nor expired. -/
theorem share_consume_delete_inv :
    (∀ (s : WState) (token : String),
      (shareConsumeRoute s token).1 = 204 →
      (shareConsumeRoute s token).2.1 = none ∧
      (shareConsumeRoute s token).2.2.shares token = none ∧
      (∀ d : Int,
        (shareConsumeRoute { (shareConsumeRoute s token).2.2 with
          now := (shareConsumeRoute s token).2.2.now + d } token).1 = 410) ∧
      (∀ d : Int,
        (shareGetRoute { (shareConsumeRoute s token).2.2 with
          now := (shareConsumeRoute s token).2.2.now + d } token).1 = 404 ∨
        (shareGetRoute { (shareConsumeRoute s token).2.2 with
          now := (shareConsumeRoute s token).2.2.now + d } token).1 = 410)) ∧
    (∀ (s : WState) (t : String), SReach t s →
      ((kvGet s.shares s.now t).isSome = true ↔
        ∃ (r : CoordRec) (e : Int), s.coord t = some (r, some e) ∧
          r.consumed = false ∧ s.now < e)) := by
  constructor
  · intro s token h204
    by_cases h0 : token = ""
    · simp [shareConsumeRoute, h0] at h204
    by_cases hc200 : (coordFetch s.coord s.now (CoordOp.consume token)).1 = 200
    case neg =>
      rcases coordFetch_consume_codes s.coord s.now token with h | h | h <;>
        simp [shareConsumeRoute, h0, hc200, h] at h204
      omega
    have heq : coordFetch s.coord s.now (CoordOp.consume token) =
        (200, (coordFetch s.coord s.now (CoordOp.consume token)).2) := by
      rw [← hc200]
    have hlock : ConsumedLocked
        (coordFetch s.coord s.now (CoordOp.consume token)).2 token :=
      consume_200_locked heq
    have hroute : shareConsumeRoute s token = (204, none,
        { s with shares := upd s.shares token none,
                 coord := (coordFetch s.coord s.now (CoordOp.consume token)).2 }) := by
      simp [shareConsumeRoute, h0, hc200]
    generalize hC : (coordFetch s.coord s.now (CoordOp.consume token)).2 = C
      at hlock hroute
    rw [hroute]
    refine ⟨rfl, by simp [upd], ?_, ?_⟩
    · intro d
      have h410 := locked_consume_410 hlock (s.now + d)
      simp [shareConsumeRoute, h0, h410]
    · intro d
      right
      obtain ⟨r, hg, hc⟩ := coordGet_locked hlock (s.now + d)
      simp [shareGetRoute, h0, coordFetch, hg, hc]
  · intro s t hreach
    rcases shareTokenInv_reach hreach with ⟨hsh, hco⟩ |
      ⟨rec, r, e, hsh, hco, hcons, _⟩ | ⟨hsh, r, hco, hcons⟩
    · simp [kvGet, hsh, hco]
    · constructor
      · intro hvis
        refine ⟨r, e, hco, hcons, ?_⟩
        by_cases hlt : s.now < e
        · exact hlt
        · simp [kvGet, hsh, hlt] at hvis
      · rintro ⟨r', e', hco', hcons', hlt⟩
        rw [hco] at hco'
        obtain ⟨hre, hee⟩ := Prod.mk.injEq .. ▸ Option.some.inj hco'
        have he : e = e' := Option.some.inj hee
        simp [kvGet, hsh, he ▸ hlt]
    · have hvis : kvGet s.shares s.now t = none := by simp [kvGet, hsh]
      rw [hvis]
      constructor
      · intro h
        exact absurd h (by decide)
      · rintro ⟨r', e', hco', _, _⟩
        rw [hco] at hco'
        obtain ⟨_, hee⟩ := Prod.mk.injEq .. ▸ Option.some.inj hco'
        cases hee

/-- Share token minted in the concrete share scenario. -/
def tokC : String := generateToken 24 z0

/-- State after a concrete `POST /v1/shares` for `bob` with
`ttlSec = 120` at time 0. -/
def wT1 : WState :=
  (sharesPost wState0 "bob" (some "CIPH") none none metaAlice (some 120)
    DEFAULT_MAX_PAYLOAD DEFAULT_MAX_TTL z0).2.2

/-- Witness for C2 on the concrete share: the freshly created share is
visible iff the coordinator record is live (both true here), and the
first consume answers 204 with no body, deletes the record, and leaves
410 behind for a repeated consume and for a GET one second later. -/
theorem share_consume_delete_inv_witness :
    ((kvGet wT1.shares wT1.now tokC).isSome = true ↔
      ∃ (r : CoordRec) (e : Int), wT1.coord tokC = some (r, some e) ∧
        r.consumed = false ∧ wT1.now < e) ∧
    (shareConsumeRoute wT1 tokC).2.1 = none ∧
    (shareConsumeRoute wT1 tokC).2.2.shares tokC = none ∧
    (shareConsumeRoute { (shareConsumeRoute wT1 tokC).2.2 with
      now := (shareConsumeRoute wT1 tokC).2.2.now + 1 } tokC).1 = 410 ∧
    ((shareGetRoute { (shareConsumeRoute wT1 tokC).2.2 with
        now := (shareConsumeRoute wT1 tokC).2.2.now + 1 } tokC).1 = 404 ∨
      (shareGetRoute { (shareConsumeRoute wT1 tokC).2.2 with
        now := (shareConsumeRoute wT1 tokC).2.2.now + 1 } tokC).1 = 410) := by
  have hreach : SReach tokC wT1 :=
    SReach.post wState0 "bob" (some "CIPH") none none metaAlice (some 120)
      DEFAULT_MAX_PAYLOAD DEFAULT_MAX_TTL z0
      (SReach.start wState0 rfl rfl) rfl rfl (by decide)
  have hb := share_consume_delete_inv.2 wT1 tokC hreach
  have ha := share_consume_delete_inv.1 wT1 tokC (by decide)
  exact ⟨hb, ha.1, ha.2.1, ha.2.2.1 1, ha.2.2.2 1⟩
